import Mathlib

/-! ArchiLum: scene registry, placement, environment and export

A shallow embedding of the class `ArchiLumApp` of `src/api-server.js`.

* The application object (`this`) is the record `App`; every method is a function
  `App → App` (plus its arguments and whatever it reads from the browser).
* JavaScript numbers are `JSNum`: a finite double is an exact rational, `NaN` is a value of
  its own. Rounding and the two infinities are outside the model.
* Object identity of three.js objects is a reference number (`ref`) drawn from `App.nextRef`;
  the scene graph stores references, the registry stores the objects.
* What the browser or three.js decides (the result of the ray cast, the answer to `confirm`,
  `Math.cos`, the clock, whether a statement inside a `try` throws) is an argument of the
  function that uses it.
* A session is a list of `Action`s run from the application `createDefaultScene` leaves; the
  invariants of the registry are proved over every such list.
-/

namespace ArchiLum

/-! ## Numbers -/

/-- JavaScript number: `num q` is a finite value, `nan` is NaN. -/
inductive JSNum where
  | nan : JSNum
  | num (q : ℚ) : JSNum
  deriving DecidableEq

namespace JSNum

/-- The operator `a + b` on numbers. -/
def add : JSNum → JSNum → JSNum
  | num a, num b => num (a + b)
  | _, _ => nan

/-- The operator `a - b` on numbers. -/
def sub : JSNum → JSNum → JSNum
  | num a, num b => num (a - b)
  | _, _ => nan

/-- The operator `a * b` on numbers. -/
def mul : JSNum → JSNum → JSNum
  | num a, num b => num (a * b)
  | _, _ => nan

/-- The operator `a / b` on numbers. A zero divisor gives an infinity (or NaN) in JavaScript;
the model has no infinity and answers `nan`. The source only divides by the constants 2 and 24. -/
def div : JSNum → JSNum → JSNum
  | num a, num b => if b = 0 then nan else num (a / b)
  | _, _ => nan

/-- The unary operator `-a`. -/
def neg : JSNum → JSNum
  | num a => num (-a)
  | nan => nan

/-- The comparison `a < b`: false as soon as one side is NaN. -/
def lt : JSNum → JSNum → Bool
  | num a, num b => decide (a < b)
  | _, _ => false

/-- The comparison `a > b`: false as soon as one side is NaN. -/
def gt : JSNum → JSNum → Bool
  | num a, num b => decide (a > b)
  | _, _ => false

/-- Truthiness of a number in a condition: `0` and `NaN` are falsy. -/
def truthy : JSNum → Bool
  | num q => decide (q ≠ 0)
  | nan => false

end JSNum

/-- The functions of `Math` the source calls; they belong to the JavaScript runtime. -/
structure JSMath where
  cos : JSNum → JSNum
  sin : JSNum → JSNum
  pi : JSNum

/-! ## three.js values -/

/-- A `THREE.Vector3`. -/
structure Vec3 where
  x : JSNum
  y : JSNum
  z : JSNum
  deriving DecidableEq

/-- A `THREE.Euler`: three angles and the rotation order. -/
structure Euler where
  x : JSNum
  y : JSNum
  z : JSNum
  order : String
  deriving DecidableEq

/-- The rotation of a freshly constructed object. -/
def Euler.zero : Euler := ⟨.num 0, .num 0, .num 0, "XYZ"⟩

/-- The position of a freshly constructed object. -/
def Vec3.zero : Vec3 := ⟨.num 0, .num 0, .num 0⟩

/-- The scale of a freshly constructed object. -/
def Vec3.one : Vec3 := ⟨.num 1, .num 1, .num 1⟩

/-- A colour as the source passes it: a hexadecimal number or the string of the colour picker. -/
inductive Color where
  | hex (n : Nat) : Color
  | css (s : String) : Color
  deriving DecidableEq

/-- The options object given to `new THREE.MeshStandardMaterial({...})`; an absent key is `none`. -/
structure MaterialParams where
  color : Color
  roughness : Option ℚ := none
  metalness : Option ℚ := none
  transparent : Option Bool := none
  opacity : Option ℚ := none
  bumpScale : Option ℚ := none
  deriving DecidableEq

/-- The geometry constructors the source uses, with their arguments. -/
inductive Geometry where
  | box (w h d : JSNum) : Geometry
  | cone (r h : JSNum) (segments : Nat) : Geometry
  | cylinder (rTop rBottom h : JSNum) : Geometry
  | sphere (r : JSNum) : Geometry
  | plane (w h : JSNum) : Geometry
  deriving DecidableEq

/-- A child mesh of a `THREE.Group`. -/
structure Part where
  geometry : Geometry
  material : MaterialParams
  position : Vec3
  deriving DecidableEq

/-- What an object is: one mesh, or a group of child meshes. -/
inductive Body where
  | mesh (g : Geometry) (m : MaterialParams) : Body
  | group (children : List Part) : Body
  deriving DecidableEq

/-- A `THREE.Mesh` or `THREE.Group` held by the registry. -/
structure Object3D where
  ref : Nat
  body : Body
  position : Vec3 := Vec3.zero
  rotation : Euler := Euler.zero
  scale : Vec3 := Vec3.one
  castShadow : Bool := false
  receiveShadow : Bool := false
  deriving DecidableEq

/-! ## Application state -/

/-- An entry of `state.sceneObjects`. A key the object literal does not set is `none`. -/
structure SceneObject where
  type : String
  mesh : Object3D
  material : Option String := none
  color : Option String := none
  height : Option JSNum := none
  assetType : Option String := none
  deriving DecidableEq

/-- The ambient light of `state.lights.ambient`. -/
structure AmbientLight where
  ref : Nat
  color : Nat
  intensity : JSNum
  deriving DecidableEq

/-- The directional light of `state.lights.sun`. -/
structure SunLight where
  ref : Nat
  color : Nat
  intensity : JSNum
  position : Vec3
  castShadow : Bool
  shadowMapWidth : JSNum
  shadowMapHeight : JSNum
  shadowDarkness : Option JSNum := none
  deriving DecidableEq

/-- The record `state.lights`. -/
structure Lights where
  ambient : Option AmbientLight := none
  sun : Option SunLight := none
  deriving DecidableEq

/-- A grid or axes helper: its reference, its position and its `visible` flag. -/
structure Helper where
  ref : Nat
  position : Vec3 := Vec3.zero
  visible : Bool := true
  deriving DecidableEq

/-- The four materials `createDemoBuilding` stores in `state.materials`. -/
structure DemoMaterials where
  wall : MaterialParams
  roof : MaterialParams
  window : MaterialParams
  door : MaterialParams
  deriving DecidableEq

/-- The record `this.state`. -/
structure State where
  mode : String := "bim"
  activeTool : String := "wall"
  sceneObjects : List SceneObject := []
  materials : Option DemoMaterials := none
  lights : Lights := {}
  grid : Option Helper := none
  axes : Option Helper := none
  apiConnected : Bool := false
  deriving DecidableEq

/-- A `THREE.Fog`. -/
structure Fog where
  color : Nat
  near : JSNum
  far : JSNum
  deriving DecidableEq

/-- The `THREE.Scene`: references of its children, background colour, fog. `ground` is the
ground plane, which only the scene graph holds. -/
structure Scene where
  children : List Nat := []
  ground : Option Object3D := none
  background : Nat := 0x0f172a
  fog : Option Fog := none
  deriving DecidableEq

/-- The camera: its position and its world direction. -/
structure Camera where
  position : Vec3
  direction : Vec3
  deriving DecidableEq

/-- The tone mapping constants the source assigns. -/
inductive ToneMapping where
  | NoToneMapping
  | ACESFilmicToneMapping
  deriving DecidableEq

/-- The renderer settings the source assigns. -/
structure Renderer where
  toneMapping : ToneMapping := .NoToneMapping
  toneMappingExposure : JSNum := .num 1
  deriving DecidableEq

/-- The record `this.stats`. -/
structure Stats where
  fps : JSNum := .num 60
  triangles : JSNum := .num 0
  objects : Nat := 0
  deriving DecidableEq

/-- A toast appended to the toast container. -/
structure Toast where
  message : String
  type : String
  icon : String
  deriving DecidableEq

/-- The part of the document the methods read and write.
`heightSlider` is `parseFloat` of the control, `surfaceArea` is the number shown as
`area.toFixed(1) + " m²"`, `objectCount` is the number shown. A flag ending in `Active` says
whether the element has the class `active`; `toolButtons` lists the tool buttons by their
`data-tool`, each with that flag; the two `Display` fields are `style.display` of the panels. -/
structure Dom where
  heightSlider : JSNum
  colorPicker : String
  materialSelect : String
  objectCount : Nat := 0
  surfaceArea : JSNum := .num 0
  toasts : List Toast := []
  bimModeBtnActive : Bool := true
  renderModeBtnActive : Bool := false
  bimPanelDisplay : String := "block"
  renderPanelDisplay : String := "none"
  bimPanelActive : Bool := true
  renderPanelActive : Bool := false
  toolButtons : List (String × Bool) :=
    [("wall", true), ("window", false), ("door", false), ("furniture", false)]
  exportModalActive : Bool := false
  deriving DecidableEq

/-- The application object. `mouse` is the pointer in normalised device coordinates. -/
structure App where
  state : State
  scene : Scene
  camera : Camera
  mouse : JSNum × JSNum := (.num 0, .num 0)
  renderer : Renderer
  stats : Stats
  dom : Dom
  nextRef : Nat
  deriving DecidableEq

/-! ## Notifications and counters -/

/-- Source: `getToastIcon`. -/
def getToastIcon (type : String) : String :=
  if type = "success" then "check-circle"
  else if type = "error" then "exclamation-circle"
  else if type = "warning" then "exclamation-triangle"
  else "info-circle"

/-- Source: `showToast`. The toast is appended to the container; its timed removal is not modelled. -/
def showToast (a : App) (message : String) (type : String) : App :=
  { a with dom := { a.dom with toasts := a.dom.toasts ++ [⟨message, type, getToastIcon type⟩] } }

/-- Source: `updateObjectCount`. -/
def updateObjectCount (a : App) : App :=
  let count := a.state.sceneObjects.length
  { a with dom := { a.dom with objectCount := count }, stats := { a.stats with objects := count } }

/-- The loop body of `updateSurfaceArea`: one registry entry added to the running `area`. -/
def surfaceAreaStep (area : JSNum) (obj : SceneObject) : JSNum :=
  match obj.height with
  | some h => if obj.type = "wall" ∧ h.truthy = true then area.add ((JSNum.num 3).mul h) else area
  | none => area

/-- The value of `area` at the end of the loop of `updateSurfaceArea`. -/
def surfaceArea (objs : List SceneObject) : JSNum :=
  objs.foldl surfaceAreaStep (.num 0)

/-- Source: `updateSurfaceArea`. -/
def updateSurfaceArea (a : App) : App :=
  { a with dom := { a.dom with surfaceArea := surfaceArea a.state.sceneObjects } }

/-- The call `this.scene.add(obj)`. -/
def sceneAdd (a : App) (ref : Nat) : App :=
  { a with scene := { a.scene with children := a.scene.children ++ [ref] } }

/-- The call `this.scene.remove(obj)`. -/
def sceneRemove (a : App) (ref : Nat) : App :=
  { a with scene := { a.scene with children := a.scene.children.filter (fun r => r ≠ ref) } }

/-- The statement `this.state.sceneObjects.push(obj)`. -/
def pushObject (a : App) (obj : SceneObject) : App :=
  { a with state := { a.state with sceneObjects := a.state.sceneObjects ++ [obj] } }

/-! ## Creating elements -/

/-- The material `addWall` builds in its `switch(materialType)`. -/
def wallMaterial (materialType : String) (color : String) : MaterialParams :=
  if materialType = "brick" then
    { color := .css color, roughness := some 0.8, bumpScale := some 0.05 }
  else if materialType = "concrete" then
    { color := .css color, roughness := some 0.9, metalness := some 0.1 }
  else if materialType = "wood" then
    { color := .css color, roughness := some 0.7, metalness := some 0.0 }
  else if materialType = "glass" then
    { color := .css color, transparent := some true, opacity := some 0.7, roughness := some 0.1 }
  else
    { color := .css color }

/-- Source: `addWall`. `position` is `none` when the argument is missing. -/
def addWall (a : App) (position : Option Vec3) : App :=
  let height := a.dom.heightSlider
  let color := a.dom.colorPicker
  let materialType := a.dom.materialSelect
  let geometry := Geometry.box (.num 3) height (.num 0.3)
  let material := wallMaterial materialType color
  let wall : Object3D :=
    { ref := a.nextRef
      body := .mesh geometry material
      position := position.getD ⟨.num 0, height.div (.num 2), .num 0⟩
      castShadow := true
      receiveShadow := true }
  let a := { a with nextRef := a.nextRef + 1 }
  let a := sceneAdd a wall.ref
  let a := pushObject a
    { type := "wall", mesh := wall, material := some materialType, color := some color,
      height := some height }
  let a := updateObjectCount a
  let a := updateSurfaceArea a
  showToast a "Mur ajouté" "success"

/-- Source: `addWindow`. -/
def addWindow (a : App) (position : Option Vec3) : App :=
  let geometry := Geometry.box (.num 1.5) (.num 1.2) (.num 0.1)
  let material : MaterialParams :=
    { color := .hex 0x87ceeb, transparent := some true, opacity := some 0.3,
      roughness := some 0.1, metalness := some 0.5 }
  let windowMesh : Object3D :=
    { ref := a.nextRef
      body := .mesh geometry material
      position := position.getD ⟨.num 2, .num 1.5, .num 0⟩ }
  let a := { a with nextRef := a.nextRef + 1 }
  let a := sceneAdd a windowMesh.ref
  let a := pushObject a { type := "window", mesh := windowMesh }
  let a := updateObjectCount a
  showToast a "Fenêtre ajoutée" "success"

/-- Source: `addDoor`. -/
def addDoor (a : App) (position : Option Vec3) : App :=
  let geometry := Geometry.box (.num 1.2) (.num 2.2) (.num 0.2)
  let material : MaterialParams := { color := .hex 0x8b4513, roughness := some 0.8 }
  let door : Object3D :=
    { ref := a.nextRef
      body := .mesh geometry material
      position := position.getD ⟨.num (-2), .num 1.1, .num 0⟩ }
  let a := { a with nextRef := a.nextRef + 1 }
  let a := sceneAdd a door.ref
  let a := pushObject a { type := "door", mesh := door }
  let a := updateObjectCount a
  showToast a "Porte ajoutée" "success"

/-- The `switch(assetType)` of `addAsset`: the body of the mesh, or `none` when no case matches
and `mesh` stays undefined. -/
def assetBody (assetType : String) : Option Body :=
  if assetType = "tree" then
    some (.group
      [ ⟨.cylinder (.num 0.2) (.num 0.3) (.num 3), { color := .hex 0x8b4513 }, Vec3.zero⟩,
        ⟨.cone (.num 2) (.num 4) 8, { color := .hex 0x228B22 }, ⟨.num 0, .num 4, .num 0⟩⟩ ])
  else if assetType = "person" then
    some (.mesh (.cylinder (.num 0.3) (.num 0.3) (.num 1.8)) { color := .hex 0x3498db })
  else if assetType = "car" then
    some (.mesh (.box (.num 2) (.num 0.8) (.num 4)) { color := .hex 0xe74c3c })
  else if assetType = "plant" then
    some (.mesh (.sphere (.num 0.5)) { color := .hex 0x27ae60 })
  else none

/-- Source: `addAsset`. -/
def addAsset (a : App) (assetType : String) : App :=
  match assetBody assetType with
  | none => a
  | some body =>
    let d := a.camera.direction
    let p := a.camera.position
    let position : Vec3 :=
      { x := p.x.add (d.x.mul (.num 5)), y := .num 0, z := p.z.add (d.z.mul (.num 5)) }
    let mesh : Object3D :=
      { ref := a.nextRef, body := body, position := position, castShadow := true }
    let a := { a with nextRef := a.nextRef + 1 }
    let a := sceneAdd a mesh.ref
    let a := pushObject a { type := "asset", mesh := mesh, assetType := some assetType }
    let a := updateObjectCount a
    showToast a (assetType ++ " ajouté") "success"

/-! ## The demonstration building and clearing -/

/-- The object literal `materials` of `createDemoBuilding`. -/
def demoMaterials : DemoMaterials :=
  { wall := { color := .hex 0xf0f0f0, roughness := some 0.7 }
    roof := { color := .hex 0x8b4513, roughness := some 0.9 }
    window := { color := .hex 0x87ceeb, transparent := some true, opacity := some 0.3 }
    door := { color := .hex 0x8b4513, roughness := some 0.8 } }

/-- One turn of the loop `for (let i = 0; i < 4; i++)` of `createDemoBuilding`. -/
def addDemoWindow (m : JSMath) (a : App) (i : Nat) : App :=
  let angle := ((JSNum.num i).mul m.pi).div (.num 2)
  let windowMesh : Object3D :=
    { ref := a.nextRef
      body := .mesh (.box (.num 1) (.num 1.5) (.num 0.1)) demoMaterials.window
      position := ⟨(m.cos angle).mul (.num 4.1), .num 3, (m.sin angle).mul (.num 4.1)⟩ }
  let a := { a with nextRef := a.nextRef + 1 }
  let a := sceneAdd a windowMesh.ref
  pushObject a { type := "window", mesh := windowMesh }

/-- Source: `createDemoBuilding`. -/
def createDemoBuilding (m : JSMath) (a : App) : App :=
  let materials := demoMaterials
  let building : Object3D :=
    { ref := a.nextRef
      body := .mesh (.box (.num 8) (.num 6) (.num 8)) materials.wall
      position := ⟨.num 0, .num 3, .num 0⟩
      castShadow := true
      receiveShadow := true }
  let a := { a with nextRef := a.nextRef + 1 }
  let a := sceneAdd a building.ref
  let a := pushObject a { type := "building", mesh := building }
  let roof : Object3D :=
    { ref := a.nextRef
      body := .mesh (.cone (.num 6) (.num 3) 4) materials.roof
      position := ⟨.num 0, .num 9, .num 0⟩
      rotation := { Euler.zero with y := m.pi.div (.num 4) }
      castShadow := true }
  let a := { a with nextRef := a.nextRef + 1 }
  let a := sceneAdd a roof.ref
  let a := pushObject a { type := "roof", mesh := roof }
  let a := (List.range 4).foldl (addDemoWindow m) a
  let door : Object3D :=
    { ref := a.nextRef
      body := .mesh (.box (.num 1.2) (.num 2.2) (.num 0.2)) materials.door
      position := ⟨.num 0, .num 1, .num 4.1⟩ }
  let a := { a with nextRef := a.nextRef + 1 }
  let a := sceneAdd a door.ref
  let a := pushObject a { type := "door", mesh := door }
  { a with state := { a.state with materials := some materials } }

/-- Source: `clearScene`. `confirmed` is the answer of the `confirm` dialog. -/
def clearScene (m : JSMath) (a : App) (confirmed : Bool) : App :=
  if confirmed then
    let a := a.state.sceneObjects.foldl (fun acc obj => sceneRemove acc obj.mesh.ref) a
    let a := { a with state := { a.state with sceneObjects := [] } }
    let a := createDemoBuilding m a
    let a := updateObjectCount a
    let a := updateSurfaceArea a
    showToast a "Scène réinitialisée" "success"
  else a

/-! ## The native export -/

/-- A JavaScript value as `JSON.stringify` meets it. -/
inductive JSVal where
  | undefined : JSVal
  | null : JSVal
  | num (n : JSNum) : JSVal
  | str (s : String) : JSVal
  | arr (items : List JSVal) : JSVal
  | obj (fields : List (String × JSVal)) : JSVal

/-- Property access `o[key]`: `undefined` when the key is absent or `o` is not an object. -/
def JSVal.get : JSVal → String → JSVal
  | .obj fields, key => ((fields.find? (fun kv => kv.1 = key)).map (fun kv => kv.2)).getD .undefined
  | _, _ => .undefined

/-- A string that may be undefined, as a value. -/
def JSVal.ofOptString : Option String → JSVal
  | some s => .str s
  | none => .undefined

/-- A number that may be undefined, as a value. -/
def JSVal.ofOptNum : Option JSNum → JSVal
  | some n => .num n
  | none => .undefined

/-- The method `Vector3.toArray()`. -/
def Vec3.toArray (v : Vec3) : JSVal := .arr [.num v.x, .num v.y, .num v.z]

/-- The method `Euler.toArray()`: the three angles, then the order. -/
def Euler.toArray (e : Euler) : JSVal := .arr [.num e.x, .num e.y, .num e.z, .str e.order]

/-- The arrow function mapped over `state.sceneObjects` in `exportAsJSON`. -/
def serializeObject (o : SceneObject) : JSVal :=
  .obj
    [ ("type", .str o.type),
      ("position", o.mesh.position.toArray),
      ("rotation", o.mesh.rotation.toArray),
      ("scale", o.mesh.scale.toArray),
      ("material", .ofOptString o.material),
      ("color", .ofOptString o.color),
      ("height", .ofOptNum o.height) ]

/-- Source: `exportAsJSON`. The value is the object `projectData`; the method returns its text
`JSON.stringify(projectData, null, 2)`. `created` is `new Date().toISOString()`. -/
def exportAsJSON (a : App) (created : String) : JSVal :=
  .obj
    [ ("metadata", .obj
        [ ("version", .str "1.0"),
          ("created", .str created),
          ("application", .str "ArchiLum POC") ]),
      ("scene", .obj
        [ ("objects", .arr (a.state.sceneObjects.map serializeObject)),
          ("lights", .obj
            [ ("ambient", .ofOptNum (a.state.lights.ambient.map (fun l => l.intensity))),
              ("sun", (a.state.lights.sun.map (fun l => l.position.toArray)).getD .undefined) ]) ]),
      ("stats", .obj
        [ ("objectCount", .num (.num a.state.sceneObjects.length)),
          ("triangleCount", .num a.stats.triangles) ]) ]

mutual

/-- What `JSON.parse` reads back from `JSON.stringify(v)` for a value inside an array or as a
property value: NaN and an undefined array item become `null`. -/
def JSVal.reparse : JSVal → JSVal
  | .undefined => .null
  | .null => .null
  | .num .nan => .null
  | .num (.num q) => .num (.num q)
  | .str s => .str s
  | .arr items => .arr (JSVal.reparseItems items)
  | .obj fields => .obj (JSVal.reparseFields fields)

/-- The items of an array, each read back. -/
def JSVal.reparseItems : List JSVal → List JSVal
  | [] => []
  | v :: vs => v.reparse :: JSVal.reparseItems vs

/-- The properties of an object, each read back; a property whose value is undefined is left out
of the text. -/
def JSVal.reparseFields : List (String × JSVal) → List (String × JSVal)
  | [] => []
  | (_, .undefined) :: rest => JSVal.reparseFields rest
  | (k, v) :: rest => (k, v.reparse) :: JSVal.reparseFields rest

end

/-- A number as the JSON text carries it: a finite number as itself, NaN as `null`. -/
def JSVal.ofJsonNum : JSNum → JSVal
  | .nan => .null
  | .num q => .num (.num q)

/-! ## Placement by pointer -/

/-- The fields of the click event and of the canvas rectangle that `handleCanvasClick` reads. -/
structure ClickEvent where
  clientX : JSNum
  clientY : JSNum
  left : JSNum
  top : JSNum
  width : JSNum
  height : JSNum

/-- Source: `handleCanvasClick`. `intersects` is the array returned by
`raycaster.intersectObjects(...)`, each entry given by its `point`, nearest first. -/
def handleCanvasClick (a : App) (event : ClickEvent) (intersects : List Vec3) : App :=
  let mx := (((event.clientX.sub event.left).div event.width).mul (.num 2)).sub (.num 1)
  let my := ((((event.clientY.sub event.top).div event.height).neg).mul (.num 2)).add (.num 1)
  let a := { a with mouse := (mx, my) }
  match intersects with
  | point :: _ =>
    if a.state.mode = "bim" then
      let position : Vec3 := { point with y := point.y.add (.num 0.01) }
      if a.state.activeTool = "wall" then addWall a (some position)
      else if a.state.activeTool = "window" then addWindow a (some position)
      else if a.state.activeTool = "door" then addDoor a (some position)
      else if a.state.activeTool = "furniture" then
        showToast a "Cliquez pour placer le mobilier" "info"
      else a
    else a
  | [] =>
    if a.state.mode = "bim" ∧ a.state.activeTool = "furniture" then
      showToast a "Sélectionnez un type de mobilier" "info"
    else a

/-! ## Time of day -/

/-- Source: `updateTimeOfDay`. -/
def updateTimeOfDay (m : JSMath) (a : App) (hour : JSNum) : App :=
  match a.state.lights.sun with
  | none => a
  | some sun =>
    let sunAngle := ((hour.div (.num 24)).mul m.pi).mul (.num 2)
    let sunX := (m.cos sunAngle).mul (.num 20)
    let sunY := ((m.sin sunAngle).mul (.num 10)).add (.num 10)
    let sunZ := (m.sin sunAngle).mul (.num 20)
    let sun := { sun with position := ⟨sunX, sunY, sunZ⟩ }
    let sun :=
      if hour.lt (.num 6) || hour.gt (.num 18) then
        { sun with color := 0x4444ff, intensity := .num 0.5 }
      else if hour.lt (.num 8) || hour.gt (.num 16) then
        { sun with color := 0xffaa66, intensity := .num 0.8 }
      else
        { sun with color := 0xffffff, intensity := .num 1.2 }
    { a with state := { a.state with lights := { a.state.lights with sun := some sun } } }

/-! ## The default scene -/

/-- Source: `createDefaultScene`. -/
def createDefaultScene (m : JSMath) (a : App) : App :=
  let ambientLight : AmbientLight := { ref := a.nextRef, color := 0xffffff, intensity := .num 0.5 }
  let a := { a with nextRef := a.nextRef + 1 }
  let a := sceneAdd a ambientLight.ref
  let a := { a with state := { a.state with
    lights := { a.state.lights with ambient := some ambientLight } } }
  let sunLight : SunLight :=
    { ref := a.nextRef, color := 0xffffff, intensity := .num 1
      position := ⟨.num 10, .num 20, .num 5⟩
      castShadow := true
      shadowMapWidth := .num 2048
      shadowMapHeight := .num 2048 }
  let a := { a with nextRef := a.nextRef + 1 }
  let a := sceneAdd a sunLight.ref
  let a := { a with state := { a.state with lights := { a.state.lights with sun := some sunLight } } }
  let ground : Object3D :=
    { ref := a.nextRef
      body := .mesh (.plane (.num 50) (.num 50))
        { color := .hex 0x334155, roughness := some 0.8, metalness := some 0.2 }
      rotation := { Euler.zero with x := m.pi.neg.div (.num 2) }
      receiveShadow := true }
  let a := { a with nextRef := a.nextRef + 1 }
  let a := sceneAdd a ground.ref
  let a := { a with scene := { a.scene with ground := some ground } }
  let gridHelper : Helper := { ref := a.nextRef, position := ⟨.num 0, .num 0.01, .num 0⟩ }
  let a := { a with nextRef := a.nextRef + 1 }
  let a := sceneAdd a gridHelper.ref
  let a := { a with state := { a.state with grid := some gridHelper } }
  let axesHelper : Helper := { ref := a.nextRef }
  let a := { a with nextRef := a.nextRef + 1 }
  let a := sceneAdd a axesHelper.ref
  let a := { a with state := { a.state with axes := some axesHelper } }
  let a := createDemoBuilding m a
  updateObjectCount a

/-! ## Mode and tool -/

/-- Source: `activateRenderMode`. -/
def activateRenderMode (a : App) : App :=
  let a :=
    match a.state.lights.sun with
    | some sun =>
      { a with state := { a.state with
          lights := { a.state.lights with sun := some { sun with intensity := .num 1.5 } } } }
    | none => a
  { a with renderer := { a.renderer with
      toneMapping := .ACESFilmicToneMapping, toneMappingExposure := .num 1.2 } }

/-- Source: `activateBIMMode`. -/
def activateBIMMode (a : App) : App :=
  let a :=
    match a.state.lights.sun with
    | some sun =>
      { a with state := { a.state with
          lights := { a.state.lights with sun := some { sun with intensity := .num 1 } } } }
    | none => a
  { a with renderer := { a.renderer with toneMapping := .NoToneMapping } }

/-- Source: `setMode`. -/
def setMode (a : App) (mode : String) : App :=
  let a := { a with state := { a.state with mode := mode } }
  let a := { a with dom := { a.dom with
    bimModeBtnActive := decide (mode = "bim")
    renderModeBtnActive := decide (mode = "render")
    bimPanelDisplay := if mode = "bim" then "block" else "none"
    renderPanelDisplay := if mode = "render" then "block" else "none" } }
  let a := if mode = "render" then activateRenderMode a else activateBIMMode a
  showToast a ("Mode " ++ (if mode = "bim" then "BIM" else "Rendu") ++ " activé") "success"

/-- Source: `setActiveTool`. -/
def setActiveTool (a : App) (tool : String) : App :=
  let a := { a with state := { a.state with activeTool := tool } }
  let a := { a with dom := { a.dom with
    toolButtons := a.dom.toolButtons.map (fun btn => (btn.1, decide (btn.1 = tool))) } }
  showToast a ("Outil " ++ tool ++ " sélectionné") "info"

/-! ## Keyboard -/

/-- The method `toLowerCase` on the letters A to Z. JavaScript also lowers letters outside
ASCII; none of them yields a case label of `handleKeyPress`. -/
def toLowerCase (s : String) : String := String.mk (s.data.map Char.toLower)

/-- Source: `togglePanels`. -/
def togglePanels (a : App) : App :=
  { a with dom := { a.dom with
      bimPanelActive := !a.dom.bimPanelActive, renderPanelActive := !a.dom.renderPanelActive } }

/-- Source: `hideExportModal`. -/
def hideExportModal (a : App) : App :=
  { a with dom := { a.dom with exportModalActive := false } }

/-- Source: `handleKeyPress`. `key` is `event.key`; `event.preventDefault()` acts on the event
only. -/
def handleKeyPress (a : App) (key : String) : App :=
  let k := toLowerCase key
  if k = "h" then togglePanels a
  else if k = "1" then setActiveTool a "wall"
  else if k = "2" then setActiveTool a "window"
  else if k = "3" then setActiveTool a "door"
  else if k = "escape" then hideExportModal a
  else if k = " " then setMode a (if a.state.mode = "bim" then "render" else "bim")
  else a

/-! ## The placeholder exports and the export dialog -/

/-- Source: `exportAsGLTF`. The value is the object `gltf`; the method returns its text
`JSON.stringify(gltf, null, 2)`. The method reads nothing of the application. -/
def exportAsGLTF (_a : App) : JSVal :=
  .obj
    [ ("asset", .obj [("version", .str "2.0"), ("generator", .str "ArchiLum POC")]),
      ("scenes", .arr [.obj [("nodes", .arr [.num (.num 0)])]]),
      ("nodes", .arr [.obj [("mesh", .num (.num 0))]]),
      ("meshes", .arr
        [ .obj [("primitives", .arr
            [ .obj
                [ ("attributes", .obj [("POSITION", .num (.num 0))]),
                  ("indices", .num (.num 1)),
                  ("mode", .num (.num 4)) ] ])] ]) ]

/-- A record of the DATA section of the IFC text: `#id=ENTITY(arguments);`. -/
structure IfcRecord where
  id : Nat
  entity : String
  arguments : String
  deriving DecidableEq

/-- The line of an IFC record. -/
def IfcRecord.line (r : IfcRecord) : String :=
  "#" ++ toString r.id ++ "=" ++ r.entity ++ "(" ++ r.arguments ++ ");"

/-- The records the template of `exportAsIFC` writes in its DATA section. -/
def ifcRecords : List IfcRecord :=
  [ ⟨1, "IFCPROJECT", "'0w8$qLr6z44PARMpzvT0zx',#2,'Projet ArchiLum','Description',$,$,$,(#7),#8"⟩,
    ⟨2, "IFCOWNERHISTORY", "#3,#6,$,.NOCHANGE.,$,$,$,0"⟩,
    ⟨3, "IFCPERSONANDORGANIZATION", "#4,#5,$"⟩,
    ⟨4, "IFCPERSON", "$,'Architect','User',$,$,$"⟩,
    ⟨5, "IFCORGANIZATION", "$,'ArchiLum','$'"⟩,
    ⟨6, "IFCAPPLICATION", "#5,'1.0','ArchiLum','POC'"⟩,
    ⟨7, "IFCUNITASSIGNMENT", "(#9,#10)"⟩,
    ⟨8, "IFCGEOMETRICREPRESENTATIONCONTEXT", "$,'Model',3,1.0E-5,#11,$"⟩,
    ⟨9, "IFCSIUNIT", "*,.LENGTHUNIT.,.MILLI.,.METRE."⟩,
    ⟨10, "IFCSIUNIT", "*,.AREAUNIT.,$,.SQUARE_METRE."⟩,
    ⟨11, "IFCAXIS2PLACEMENT3D", "#12,#13,#14"⟩,
    ⟨12, "IFCCARTESIANPOINT", "(0.,0.,0.)"⟩,
    ⟨13, "IFCDIRECTION", "(0.,0.,1.)"⟩,
    ⟨14, "IFCDIRECTION", "(1.,0.,0.)"⟩ ]

/-- The lines of the text `exportAsIFC` returns. `created` is `new Date().toISOString()`. -/
def ifcLines (created : String) : List String :=
  [ "ISO-10303-21;",
    "HEADER;",
    "FILE_DESCRIPTION(('ArchiLum Export'),'2;1');",
    "FILE_NAME('archilum_export.ifc','" ++ created ++ "',(''),(''),'ArchiLum POC','','');",
    "FILE_SCHEMA(('IFC4'));",
    "ENDSEC;",
    "",
    "DATA;" ] ++
  ifcRecords.map IfcRecord.line ++
  [ "",
    "/* Building elements would go here */",
    "",
    "ENDSEC;",
    "END-ISO-10303-21;" ]

/-- Source: `exportAsIFC`. The method reads nothing of the application. -/
def exportAsIFC (_a : App) (created : String) : String :=
  "\n".intercalate (ifcLines created)

/-- The method `toUpperCase` on the letters a to z. -/
def toUpperCase (s : String) : String := String.mk (s.data.map Char.toUpper)

/-- What a download carries: the text of a JSON document, a plain text, or `undefined`. -/
inductive ExportData where
  | json (doc : JSVal) : ExportData
  | text (s : String) : ExportData
  | undefined : ExportData

/-- A download started by `link.click()`; `filename` and `mimeType` may be undefined. -/
structure Download where
  filename : Option String
  mimeType : Option String
  data : ExportData

/-- Where the browser or a called method throws inside the `try` of `exportProject`: while the
data is produced, or in the block that creates the download. -/
inductive ExportFault where
  | produce
  | download
  deriving DecidableEq

/-- Source: `renderImage`, as far as `App` goes: the toasts and the download. `dataURL` is the
image read from the canvas, `fault` says whether a statement of its `try` throws. The renderer
size it sets and restores and the upload to the API are outside `App`. -/
def renderImage (a : App) (now : Nat) (dataURL : String) (fault : Bool) : App × Option Download :=
  let a := showToast a "Génération du rendu en cours..." "info"
  if fault then (showToast a "Erreur lors du rendu" "error", none)
  else
    (showToast a "Rendu exporté avec succès !" "success",
      some { filename := some ("archilum-rendu-" ++ toString now ++ ".png")
             mimeType := none
             data := .text dataURL })

/-- The `switch(format)` of `exportProject` for a format other than image: the values of
`data`, `filename` and `mimeType` after it. -/
def exportData (a : App) (format : String) (now : Nat) (created : String) : Download :=
  if format = "gltf" then
    { data := .json (exportAsGLTF a)
      filename := some ("archilum-project-" ++ toString now ++ ".gltf")
      mimeType := some "model/gltf+json" }
  else if format = "json" then
    { data := .json (exportAsJSON a created)
      filename := some ("archilum-project-" ++ toString now ++ ".json")
      mimeType := some "application/json" }
  else if format = "ifc" then
    { data := .text (exportAsIFC a created)
      filename := some ("archilum-project-" ++ toString now ++ ".ifc")
      mimeType := some "application/ifc" }
  else { data := .undefined, filename := none, mimeType := none }

/-- Source: `exportProject`. `activeFormat` is the `data-format` of the active format card, if
any; `now` is `Date.now()`; `fault` says where, if anywhere, a statement of the `try` throws.
The result is the application and the download that was started, if one was. -/
def exportProject (a : App) (activeFormat : Option String) (now : Nat) (created : String)
    (dataURL : String) (fault : Option ExportFault) : App × Option Download :=
  let format := activeFormat.getD "json"
  let a := showToast a ("Export " ++ format ++ " en cours...") "info"
  if format = "image" then renderImage a now dataURL fault.isSome
  else
    let attempt : Except Unit Download :=
      match fault with
      | some _ => .error ()
      | none => .ok (exportData a format now created)
    match attempt with
    | .ok d =>
      let a := showToast a ("Projet exporté en " ++ toUpperCase format) "success"
      (hideExportModal a, some d)
    | .error _ => (showToast a "Erreur lors de l'export" "error", none)

/-! ## Weather and the clock label -/

/-- Source: `updateWeather`. -/
def updateWeather (a : App) (weather : String) : App :=
  if weather = "sunny" then { a with scene := { a.scene with background := 0x87ceeb } }
  else if weather = "cloudy" then { a with scene := { a.scene with background := 0xb0c4de } }
  else if weather = "overcast" then { a with scene := { a.scene with background := 0x778899 } }
  else if weather = "foggy" then
    { a with scene := { a.scene with
        background := 0xd3d3d3
        fog := some { color := 0xd3d3d3, near := .num 10, far := .num 50 } } }
  else a

/-- The method `padStart(targetLength, pad)` with a pad string of one character. -/
def padStart (s : String) (targetLength : Nat) (pad : Char) : String :=
  String.mk (List.replicate (targetLength - s.length) pad) ++ s

/-- The function `Math.round` on a finite number: the nearest integer, a tie going up. -/
def mathRound (q : ℚ) : Int := ⌊q + 1 / 2⌋

/-- Source: `formatTime`. Of a finite hour: `Math.floor`, then `Math.round` of the rest times
60, each written in decimal and padded to two characters. Of NaN both fields are `NaN`. -/
def formatTime (hour : JSNum) : String :=
  match hour with
  | .nan => padStart "NaN" 2 '0' ++ ":" ++ padStart "NaN" 2 '0'
  | .num q =>
    let hours : Int := ⌊q⌋
    let minutes : Int := mathRound ((q - hours) * 60)
    padStart (toString hours) 2 '0' ++ ":" ++ padStart (toString minutes) 2 '0'

/-! ## Sequences of user actions -/

/-- What the user, or a caller of the methods, can do to the application. -/
inductive Action where
  | setHeightSlider (value : JSNum)
  | setColorPicker (value : String)
  | setMaterialSelect (value : String)
  | selectMode (mode : String)
  | selectTool (tool : String)
  | wall (position : Option Vec3)
  | window (position : Option Vec3)
  | door (position : Option Vec3)
  | asset (assetType : String)
  | clear (confirmed : Bool)
  | click (event : ClickEvent) (intersects : List Vec3)
  | key (key : String)
  | timeOfDay (hour : JSNum)
  | exportProject (activeFormat : Option String) (now : Nat) (created : String)
      (dataURL : String) (fault : Option ExportFault)

/-- The application after one action. -/
def step (m : JSMath) (a : App) : Action → App
  | .setHeightSlider v => { a with dom := { a.dom with heightSlider := v } }
  | .setColorPicker v => { a with dom := { a.dom with colorPicker := v } }
  | .setMaterialSelect v => { a with dom := { a.dom with materialSelect := v } }
  | .selectMode mode => setMode a mode
  | .selectTool tool => setActiveTool a tool
  | .wall p => addWall a p
  | .window p => addWindow a p
  | .door p => addDoor a p
  | .asset t => addAsset a t
  | .clear c => clearScene m a c
  | .click e hits => handleCanvasClick a e hits
  | .key k => handleKeyPress a k
  | .timeOfDay h => updateTimeOfDay m a h
  | .exportProject f now created dataURL fault =>
    (exportProject a f now created dataURL fault).1

/-- The application after a sequence of actions. -/
def run (m : JSMath) (a : App) (actions : List Action) : App :=
  actions.foldl (step m) a

/-! ## Readings of the specification -/

/-- A number that is strictly greater than 0 (NaN is not). -/
def JSNum.pos : JSNum → Prop
  | .num q => 0 < q
  | .nan => False

instance : DecidablePred JSNum.pos := fun n =>
  match n with
  | .num q => inferInstanceAs (Decidable (0 < q))
  | .nan => isFalse (fun h => h)

/-- The asset names for which the `switch` of `addAsset` has a case. -/
def assetTypes : List String := ["tree", "person", "car", "plant"]

/-- An entry of type asset carries one of the four asset names. -/
def AssetOk (o : SceneObject) : Prop :=
  o.type = "asset" → ∃ t ∈ assetTypes, o.assetType = some t

/-- Entity names of IFC4 that stand for a building element or a part of the spatial structure
of a building. -/
def ifcBuildingEntities : List String :=
  [ "IFCWALL", "IFCWALLSTANDARDCASE", "IFCWINDOW", "IFCDOOR", "IFCROOF", "IFCSLAB", "IFCCOLUMN",
    "IFCBEAM", "IFCSTAIR", "IFCCOVERING", "IFCCURTAINWALL", "IFCFURNISHINGELEMENT",
    "IFCBUILDINGELEMENTPROXY", "IFCBUILDING", "IFCBUILDINGSTOREY", "IFCSITE", "IFCSPACE" ]

/-- The registry, the reference counter, the two object counts and the height control. -/
def App.core (a : App) : List SceneObject × Nat × Nat × Nat × JSNum :=
  (a.state.sceneObjects, a.nextRef, a.stats.objects, a.dom.objectCount, a.dom.heightSlider)

/-- The height control after an action: the value the action sets, or the old one. -/
def sliderAfter (a : App) : Action → JSNum
  | .setHeightSlider v => v
  | _ => a.dom.heightSlider

/-- The entries `createDemoBuilding` pushes when it runs in the application `x`. -/
def demoObjects (m : JSMath) (x : App) : List SceneObject :=
  (createDemoBuilding m { x with state := { x.state with sceneObjects := [] } }).state.sceneObjects

/-- How the registry and its counters moved from `a` to `b`: the registry is the old one, or
nothing, followed by `added`; the meshes of `added` took the next references; an added entry
with a height is a wall with the height of the control, and an added wall has that height; the
two object counts, if they were right, are right again. -/
def Grows (a b : App) (added : List SceneObject) : Prop :=
  (b.state.sceneObjects = a.state.sceneObjects ++ added ∨ b.state.sceneObjects = added) ∧
  added.map (fun o => o.mesh.ref) = List.range' a.nextRef added.length ∧
  b.nextRef = a.nextRef + added.length ∧
  (∀ o ∈ added, ∀ h, o.height = some h → o.type = "wall" ∧ h = a.dom.heightSlider) ∧
  (∀ o ∈ added, o.type = "wall" → o.height = some a.dom.heightSlider) ∧
  (a.stats.objects = a.state.sceneObjects.length →
    b.stats.objects = b.state.sceneObjects.length) ∧
  (a.dom.objectCount = a.state.sceneObjects.length →
    b.dom.objectCount = b.state.sceneObjects.length)

/-- The meshes of the registry are pairwise distinct objects and were all created before the
next reference. -/
def RefInv (a : App) : Prop :=
  (a.state.sceneObjects.map (fun o => o.mesh.ref)).Nodup ∧
  ∀ o ∈ a.state.sceneObjects, o.mesh.ref < a.nextRef

/-- The height control holds a number above 0; the entries with a height are the walls, and
their heights are numbers above 0. -/
def HeightInv (a : App) : Prop :=
  a.dom.heightSlider.pos ∧
  (∀ o ∈ a.state.sceneObjects, ∀ h, o.height = some h → o.type = "wall" ∧ h.pos) ∧
  (∀ o ∈ a.state.sceneObjects, o.type = "wall" → ∃ h, o.height = some h ∧ h.pos)

/-- The two object counts shown are the length of the registry. -/
def CountInv (a : App) : Prop :=
  a.stats.objects = a.state.sceneObjects.length ∧
  a.dom.objectCount = a.state.sceneObjects.length

/-- The keys of a registry entry: `type` and `mesh`, and each optional key that is set. -/
def SceneObject.keys (o : SceneObject) : List String :=
  ["type", "mesh"] ++ (if o.material.isSome then ["material"] else []) ++
    (if o.color.isSome then ["color"] else []) ++
    (if o.height.isSome then ["height"] else []) ++
    (if o.assetType.isSome then ["assetType"] else [])


/-- The area as the specification words it: over the elements of type wall, the sum of
`3 * height`, computed with JavaScript arithmetic (a missing height makes the product NaN). -/
def heightWeightedArea (objs : List SceneObject) : JSNum :=
  (objs.filter (fun o => o.type = "wall")).foldl
    (fun acc o => acc.add ((JSNum.num 3).mul (o.height.getD .nan))) (.num 0)

/-- What one element adds to the area: `3 * height` for a wall whose height is a number,
nothing for any other element. -/
def wallTerm (o : SceneObject) : ℚ :=
  if o.type = "wall" then
    match o.height with
    | some (.num q) => 3 * q
    | _ => 0
  else 0

/-- The band of the specification with intensity 0.5: `h < 6` or `h > 18`. -/
abbrev nightBand (h : ℚ) : Prop := h < 6 ∨ h > 18

/-- The band of the specification with intensity 0.8: `6 ≤ h < 8` or `16 < h ≤ 18`. -/
abbrev warmBand (h : ℚ) : Prop := (6 ≤ h ∧ h < 8) ∨ (16 < h ∧ h ≤ 18)

/-- The remaining band, with intensity 1.2: `8 ≤ h ≤ 16`. -/
abbrev dayBand (h : ℚ) : Prop := 8 ≤ h ∧ h ≤ 16

/-! ## Sample values -/

/-- A runtime whose `Math` is replaced by exact stand-ins; used to evaluate the definitions. -/
def sampleMath : JSMath := { cos := fun _ => .num 1, sin := fun _ => .num 0, pi := .num 3 }

/-- A freshly constructed application before any scene is built. -/
def sampleApp : App :=
  { state := {}
    scene := {}
    camera := { position := ⟨.num 10, .num 10, .num 10⟩, direction := ⟨.num 0, .num 0, .num (-1)⟩ }
    renderer := {}
    stats := {}
    dom := { heightSlider := .num 3, colorPicker := "#ffffff", materialSelect := "brick" }
    nextRef := 0 }

/-- A click in the middle of an 800 by 600 canvas. -/
def sampleClick : ClickEvent :=
  { clientX := .num 400, clientY := .num 300, left := .num 0, top := .num 0,
    width := .num 800, height := .num 600 }

/-- The sample application once `createDefaultScene` has run. -/
def initialApp : App := createDefaultScene sampleMath sampleApp

/-- The sample application at midnight: `updateTimeOfDay(0)` after `createDefaultScene`. -/
def nightApp : App := updateTimeOfDay sampleMath initialApp (.num 0)

/-- The sample application after `createDefaultScene`, with the height control at 0. -/
def zeroHeightApp : App :=
  { initialApp with dom := { initialApp.dom with heightSlider := .num 0 } }

/-- The sample application in render mode. -/
def renderApp : App := setMode initialApp "render"

/-- The sample application with the furniture tool selected. -/
def furnitureApp : App := setActiveTool initialApp "furniture"

/-- An hour of [0,24) less than half a minute before midnight: 23 + 255/256 = 23.99609375. -/
def lateHour : ℚ := 6143 / 256

/-- A point of the ground hit by a ray. -/
def sampleHit : Vec3 := ⟨.num 1, .num 0, .num 2⟩

/-- The app of `sampleApp` with a height control whose value does not parse as a number. -/
def nanHeightApp : App :=
  { sampleApp with dom := { sampleApp.dom with heightSlider := .nan } }

/-- A wall of the given height, as `addWall` registers it with the sample controls. -/
def sampleWall (height : ℚ) : SceneObject :=
  { type := "wall"
    mesh := { ref := 0, body := .mesh (.box (.num 3) (.num height) (.num 0.3))
                (wallMaterial "brick" "#ffffff") }
    material := some "brick"
    color := some "#ffffff"
    height := some (.num height) }

/-- The app of `sampleApp` with the material control set to a name `addWall` has no case for. -/
def marbleApp : App :=
  { sampleApp with dom := { sampleApp.dom with materialSelect := "marble" } }

/-- Everything of a registry entry except the identity of its mesh. -/
def SceneObject.content (o : SceneObject) :
    String × Body × Vec3 × Euler × Vec3 × Bool × Bool × Option String × Option String ×
      Option JSNum × Option String :=
  (o.type, o.mesh.body, o.mesh.position, o.mesh.rotation, o.mesh.scale, o.mesh.castShadow,
    o.mesh.receiveShadow, o.material, o.color, o.height, o.assetType)

/-! ## Registry lemmas -/

/-- The registry after `addWall`: the old entries, then the new wall. -/
theorem addWall_sceneObjects (a : App) (position : Option Vec3) :
    (addWall a position).state.sceneObjects = a.state.sceneObjects ++
      [{ type := "wall"
         mesh :=
          { ref := a.nextRef
            body := .mesh (.box (.num 3) a.dom.heightSlider (.num 0.3))
              (wallMaterial a.dom.materialSelect a.dom.colorPicker)
            position := position.getD ⟨.num 0, a.dom.heightSlider.div (.num 2), .num 0⟩
            castShadow := true
            receiveShadow := true }
         material := some a.dom.materialSelect
         color := some a.dom.colorPicker
         height := some a.dom.heightSlider }] := rfl

/-- The registry after `addWindow`: the old entries, then the new window. -/
theorem addWindow_sceneObjects (a : App) (position : Option Vec3) :
    ∃ mesh, (addWindow a position).state.sceneObjects = a.state.sceneObjects ++
      [{ type := "window", mesh := mesh }] := ⟨_, rfl⟩

/-- The registry after `addDoor`: the old entries, then the new door. -/
theorem addDoor_sceneObjects (a : App) (position : Option Vec3) :
    ∃ mesh, (addDoor a position).state.sceneObjects = a.state.sceneObjects ++
      [{ type := "door", mesh := mesh }] := ⟨_, rfl⟩

/-- The registry after `addAsset` when the `switch` built a mesh. -/
theorem addAsset_sceneObjects (a : App) (t : String) (body : Body) (h : assetBody t = some body) :
    ∃ mesh, (addAsset a t).state.sceneObjects = a.state.sceneObjects ++
      [{ type := "asset", mesh := mesh, assetType := some t }] := by
  unfold addAsset
  rw [h]
  exact ⟨_, rfl⟩

/-- The four asset names for which the `switch` of `addAsset` builds a mesh. -/
theorem assetBody_isSome (t : String) (h : t = "tree" ∨ t = "person" ∨ t = "car" ∨ t = "plant") :
    ∃ body, assetBody t = some body := by
  rcases h with h | h | h | h <;> subst h <;> exact ⟨_, rfl⟩

/-- The calls `scene.remove` of `clearScene` leave `state` and the reference counter alone. -/
theorem foldl_sceneRemove_state (objs : List SceneObject) (a : App) :
    (objs.foldl (fun acc obj => sceneRemove acc obj.mesh.ref) a).state = a.state ∧
    (objs.foldl (fun acc obj => sceneRemove acc obj.mesh.ref) a).nextRef = a.nextRef := by
  induction objs generalizing a with
  | nil => exact ⟨rfl, rfl⟩
  | cons o rest ih => exact ih (sceneRemove a o.mesh.ref)

/-- The loop of `updateSurfaceArea` started from a finite `acc`: it ends on the finite number
`acc` plus what each element adds. -/
theorem foldl_surfaceAreaStep (objs : List SceneObject) (acc : ℚ) :
    objs.foldl surfaceAreaStep (.num acc) = .num (acc + (objs.map wallTerm).sum) := by
  induction objs generalizing acc with
  | nil => simp
  | cons o rest ih =>
    have step : surfaceAreaStep (.num acc) o = .num (acc + wallTerm o) := by
      unfold surfaceAreaStep wallTerm
      rcases hh : o.height with _ | h
      · simp
      · cases h with
        | nan => simp [JSNum.truthy]
        | num q =>
          by_cases hw : o.type = "wall" <;> by_cases hq : q = 0 <;>
            simp [JSNum.truthy, JSNum.add, JSNum.mul, hw, hq]
    rw [List.foldl_cons, step, ih, List.map_cons, List.sum_cons, add_assoc]

/-- The sum of the specification started from a finite `acc`, over a registry whose walls all
carry a number as height. -/
theorem foldl_heightWeighted (objs : List SceneObject) (acc : ℚ)
    (h : ∀ o ∈ objs, o.type = "wall" → ∃ q, o.height = some (.num q)) :
    (objs.filter (fun o => o.type = "wall")).foldl
        (fun (s : JSNum) (o : SceneObject) => s.add ((JSNum.num 3).mul (o.height.getD .nan)))
        (.num acc) =
      JSNum.num (acc + (objs.map wallTerm).sum) := by
  induction objs generalizing acc with
  | nil => simp
  | cons o rest ih =>
    have hrest : ∀ o ∈ rest, o.type = "wall" → ∃ q, o.height = some (.num q) :=
      fun x hx => h x (List.mem_cons_of_mem _ hx)
    by_cases hw : o.type = "wall"
    · obtain ⟨q, hq⟩ := h o (List.mem_cons_self _ _) hw
      have ht : wallTerm o = 3 * q := by simp [wallTerm, hw, hq]
      have step : (JSNum.num acc).add ((JSNum.num 3).mul (o.height.getD .nan)) =
          .num (acc + 3 * q) := by
        rw [hq]; rfl
      rw [List.filter_cons_of_pos (by simpa using hw), List.foldl_cons, step, ih _ hrest,
        List.map_cons, List.sum_cons, ht, add_assoc]
    · have ht : wallTerm o = 0 := by simp [wallTerm, hw]
      rw [List.filter_cons_of_neg (by simpa using hw), ih _ hrest, List.map_cons, List.sum_cons,
        ht, zero_add]

/-- A character that is no lower-case letter is the lower case of itself only. -/
theorem toLower_eq_of_not_letter (c t : Char) (ht : t.toNat < 97) (h : c.toLower = t) : c = t := by
  unfold Char.toLower at h
  simp only at h
  by_cases hc : c.toNat ≥ 65 ∧ c.toNat ≤ 90
  · rw [if_pos hc] at h
    exfalso
    have h2 := congrArg Char.toNat h
    have hv : (c.toNat + 32).isValidChar := by
      left; omega
    rw [Char.ofNat, dif_pos hv] at h2
    simp only [Char.ofNatAux, Char.toNat, UInt32.toNat, BitVec.toNat_ofNatLt] at h2 hc ht
    omega
  · rw [if_neg hc] at h
    exact h

/-- A key whose lower case is a single character that is no lower-case letter is that
character. -/
theorem toLowerCase_eq_single (key : String) (t : Char) (ht : t.toNat < 97)
    (h : toLowerCase key = String.mk [t]) : key = String.mk [t] := by
  unfold toLowerCase at h
  have hd : key.data.map Char.toLower = [t] := by
    have := congrArg String.data h
    simpa using this
  cases hk : key.data with
  | nil => rw [hk] at hd; simp at hd
  | cons c rest =>
    rw [hk] at hd
    simp only [List.map_cons, List.cons.injEq, List.map_eq_nil_iff] at hd
    obtain ⟨h1, h2⟩ := hd
    have hc := toLower_eq_of_not_letter c t ht h1
    have : key = String.mk key.data := rfl
    rw [this, hk, hc, h2]

/-- The sun light `createDefaultScene` builds in the sample application. -/
theorem initialApp_sun :
    initialApp.state.lights.sun = some
      { ref := 1, color := 0xffffff, intensity := .num 1, position := ⟨.num 10, .num 20, .num 5⟩
        castShadow := true, shadowMapWidth := .num 2048, shadowMapHeight := .num 2048 } := rfl

/-- The sun light of the sample application at midnight has the intensity 0.5. -/
theorem nightApp_sun :
    ∃ s, nightApp.state.lights.sun = some s ∧ s.intensity = .num 0.5 := by
  simp [nightApp, updateTimeOfDay, initialApp_sun, JSNum.lt, JSNum.gt]

/-- `setMode('render')` on an application with a sun light. -/
theorem setMode_render_sun (a : App) (sun : SunLight) (h : a.state.lights.sun = some sun) :
    (setMode a "render").state.lights.sun = some { sun with intensity := .num 1.5 } := by
  simp [setMode, activateRenderMode, showToast, h]

/-- `setMode('bim')` on an application with a sun light. -/
theorem setMode_bim_sun (a : App) (sun : SunLight) (h : a.state.lights.sun = some sun) :
    (setMode a "bim").state.lights.sun = some { sun with intensity := .num 1 } := by
  simp [setMode, activateBIMMode, showToast, h]

/-- What `setMode` leaves alone: the registry, the tool, the counters and the controls. -/
theorem setMode_frame (a : App) (mode : String) :
    (setMode a mode).state.mode = mode ∧
    (setMode a mode).state.sceneObjects = a.state.sceneObjects ∧
    (setMode a mode).state.activeTool = a.state.activeTool ∧
    (setMode a mode).nextRef = a.nextRef ∧
    (setMode a mode).stats = a.stats ∧
    (setMode a mode).dom.objectCount = a.dom.objectCount ∧
    (setMode a mode).dom.heightSlider = a.dom.heightSlider := by
  simp only [setMode, activateRenderMode, activateBIMMode, showToast]
  split_ifs <;> cases a.state.lights.sun <;> exact ⟨rfl, rfl, rfl, rfl, rfl, rfl, rfl⟩

/-- The registry after `createDemoBuilding`: the old entries, then the seven of the building. -/
theorem createDemoBuilding_sceneObjects (m : JSMath) (x : App) :
    (createDemoBuilding m x).state.sceneObjects = x.state.sceneObjects ++ demoObjects m x ∧
    (createDemoBuilding m x).nextRef = x.nextRef + 7 ∧
    (createDemoBuilding m x).stats = x.stats ∧
    (createDemoBuilding m x).dom = x.dom := by
  refine ⟨?_, rfl, rfl, rfl⟩
  simp [createDemoBuilding, demoObjects, pushObject, sceneAdd, addDemoWindow, List.range,
    List.range.loop]

/-- The seven entries of the building: their references, their types, and no height. -/
theorem demoObjects_spec (m : JSMath) (x : App) :
    (demoObjects m x).map (fun o => o.mesh.ref) = List.range' x.nextRef 7 ∧
    (demoObjects m x).length = 7 ∧
    (demoObjects m x).map (fun o => o.type) =
      ["building", "roof", "window", "window", "window", "window", "door"] ∧
    (demoObjects m x).map (fun o => o.height) = List.replicate 7 none :=
  ⟨rfl, rfl, rfl, rfl⟩

/-- No entry of the building is a wall. -/
theorem demoObjects_type (m : JSMath) (x : App) (o : SceneObject) (ho : o ∈ demoObjects m x) :
    o.type ≠ "wall" := by
  have hm : o.type ∈ (demoObjects m x).map (fun o => o.type) := List.mem_map_of_mem _ ho
  rw [(demoObjects_spec m x).2.2.1] at hm
  intro hw
  rw [hw] at hm
  exact absurd hm (by decide)

/-- No entry of the building has a height. -/
theorem demoObjects_height (m : JSMath) (x : App) (o : SceneObject) (ho : o ∈ demoObjects m x) :
    o.height = none := by
  have hm : o.height ∈ (demoObjects m x).map (fun o => o.height) := List.mem_map_of_mem _ ho
  rw [(demoObjects_spec m x).2.2.2] at hm
  exact List.eq_of_mem_replicate hm

/-- An operation that keeps the registry, the reference counter and the counts adds nothing. -/
theorem grows_of_same (a b : App) (h1 : b.state.sceneObjects = a.state.sceneObjects)
    (h2 : b.nextRef = a.nextRef) (h3 : b.stats.objects = a.stats.objects)
    (h4 : b.dom.objectCount = a.dom.objectCount) : Grows a b [] := by
  refine ⟨Or.inl (by rw [h1, List.append_nil]), rfl, by rw [h2]; rfl, ?_, ?_, ?_, ?_⟩
  · intro o ho
    exact absurd ho (List.not_mem_nil _)
  · intro o ho
    exact absurd ho (List.not_mem_nil _)
  · intro hc
    rw [h3, h1]; exact hc
  · intro hc
    rw [h4, h1]; exact hc

/-- The same, from the equality of the two cores. -/
theorem grows_of_core (a b : App) (h : b.core = a.core) : Grows a b [] := by
  simp only [App.core, Prod.mk.injEq] at h
  obtain ⟨h1, h2, h3, h4, _⟩ := h
  exact grows_of_same a b h1 h2 h3 h4

/-- An operation that pushes one entry with the next reference and then counts the objects. -/
theorem grows_of_push (a b : App) (o : SceneObject)
    (h1 : b.state.sceneObjects = a.state.sceneObjects ++ [o]) (h2 : b.nextRef = a.nextRef + 1)
    (hr : o.mesh.ref = a.nextRef)
    (hh : ∀ h, o.height = some h → o.type = "wall" ∧ h = a.dom.heightSlider)
    (hw : o.type = "wall" → o.height = some a.dom.heightSlider)
    (h3 : b.stats.objects = b.state.sceneObjects.length)
    (h4 : b.dom.objectCount = b.state.sceneObjects.length) : Grows a b [o] := by
  refine ⟨Or.inl h1, by simp [hr, List.range'], h2, ?_, ?_, fun _ => h3, fun _ => h4⟩
  · intro x hx
    rw [List.mem_singleton] at hx
    subst hx
    exact hh
  · intro x hx
    rw [List.mem_singleton] at hx
    subst hx
    exact hw

/-- `addWall` pushes one wall with the height of the control. -/
theorem addWall_grows (a : App) (position : Option Vec3) :
    ∃ added, Grows a (addWall a position) added ∧
      (addWall a position).dom.heightSlider = a.dom.heightSlider :=
  ⟨_, grows_of_push a _ _ (addWall_sceneObjects a position) rfl rfl
    (fun _ hh => ⟨rfl, (Option.some.inj hh).symm⟩) (fun _ => rfl) rfl rfl, rfl⟩

/-- `addWindow` pushes one entry without height. -/
theorem addWindow_grows (a : App) (position : Option Vec3) :
    ∃ added, Grows a (addWindow a position) added ∧
      (addWindow a position).dom.heightSlider = a.dom.heightSlider :=
  ⟨[{ type := "window", mesh := _ }],
    grows_of_push a _ _ rfl rfl rfl (fun _ hh => nomatch hh)
      (fun hw => absurd (show "window" = "wall" from hw) (by decide)) rfl rfl, rfl⟩

/-- `addDoor` pushes one entry without height. -/
theorem addDoor_grows (a : App) (position : Option Vec3) :
    ∃ added, Grows a (addDoor a position) added ∧
      (addDoor a position).dom.heightSlider = a.dom.heightSlider :=
  ⟨[{ type := "door", mesh := _ }],
    grows_of_push a _ _ rfl rfl rfl (fun _ hh => nomatch hh)
      (fun hw => absurd (show "door" = "wall" from hw) (by decide)) rfl rfl, rfl⟩

/-- `addAsset` pushes one entry without height, or does nothing. -/
theorem addAsset_grows (a : App) (t : String) :
    ∃ added, Grows a (addAsset a t) added ∧
      (addAsset a t).dom.heightSlider = a.dom.heightSlider := by
  cases hb : assetBody t with
  | none =>
    have h : addAsset a t = a := by simp [addAsset, hb]
    rw [h]
    exact ⟨[], grows_of_core a a rfl, rfl⟩
  | some body =>
    have h : addAsset a t =
        showToast (updateObjectCount (pushObject (sceneAdd { a with nextRef := a.nextRef + 1 }
          a.nextRef)
          { type := "asset"
            mesh :=
              { ref := a.nextRef, body := body
                position :=
                  { x := a.camera.position.x.add (a.camera.direction.x.mul (.num 5))
                    y := .num 0
                    z := a.camera.position.z.add (a.camera.direction.z.mul (.num 5)) }
                castShadow := true }
            assetType := some t })) (t ++ " ajouté") "success" := by
      simp [addAsset, hb]
    rw [h]
    exact ⟨_, grows_of_push a _ _ rfl rfl rfl (fun _ hh => nomatch hh)
      (fun hw => absurd (show "asset" = "wall" from hw) (by decide)) rfl rfl, rfl⟩

/-- The calls `scene.remove` of `clearScene` leave the document alone. -/
theorem foldl_sceneRemove_dom (objs : List SceneObject) (a : App) :
    (objs.foldl (fun acc obj => sceneRemove acc obj.mesh.ref) a).dom = a.dom ∧
    (objs.foldl (fun acc obj => sceneRemove acc obj.mesh.ref) a).stats = a.stats := by
  induction objs generalizing a with
  | nil => exact ⟨rfl, rfl⟩
  | cons o rest ih => exact ih (sceneRemove a o.mesh.ref)

/-- A confirmed `clearScene`, step by step. -/
theorem clearScene_true (m : JSMath) (a : App) :
    clearScene m a true =
      showToast (updateSurfaceArea (updateObjectCount (createDemoBuilding m
        { a.state.sceneObjects.foldl (fun acc obj => sceneRemove acc obj.mesh.ref) a with
          state := { (a.state.sceneObjects.foldl
            (fun acc obj => sceneRemove acc obj.mesh.ref) a).state with sceneObjects := [] } })))
        "Scène réinitialisée" "success" := rfl

/-- `clearScene` replaces the registry by the seven entries of the building, or does nothing. -/
theorem clearScene_grows (m : JSMath) (a : App) (confirmed : Bool) :
    ∃ added, Grows a (clearScene m a confirmed) added ∧
      (clearScene m a confirmed).dom.heightSlider = a.dom.heightSlider := by
  cases confirmed with
  | false => exact ⟨[], grows_of_core a a rfl, rfl⟩
  | true =>
    rw [clearScene_true]
    generalize hx : ({ a.state.sceneObjects.foldl (fun acc obj => sceneRemove acc obj.mesh.ref) a
      with state := { (a.state.sceneObjects.foldl
        (fun acc obj => sceneRemove acc obj.mesh.ref) a).state with sceneObjects := [] } } : App)
      = x
    have hn : x.nextRef = a.nextRef := by
      rw [← hx]; exact (foldl_sceneRemove_state a.state.sceneObjects a).2
    have hd : x.dom = a.dom := by
      rw [← hx]; exact (foldl_sceneRemove_dom a.state.sceneObjects a).1
    have he : x.state.sceneObjects = [] := by rw [← hx]
    obtain ⟨c1, c2, _, c4⟩ := createDemoBuilding_sceneObjects m x
    rw [he, List.nil_append] at c1
    obtain ⟨d1, d2, _, _⟩ := demoObjects_spec m x
    refine ⟨demoObjects m x, ⟨Or.inr c1, ?_, ?_, ?_, ?_, fun _ => ?_, fun _ => ?_⟩, ?_⟩
    · rw [d1, d2, hn]
    · rw [d2, ← hn]; exact c2
    · intro o ho h hh
      rw [demoObjects_height m x o ho] at hh
      exact nomatch hh
    · intro o ho hw
      exact absurd hw (demoObjects_type m x o ho)
    · exact rfl
    · exact rfl
    · show (createDemoBuilding m x).dom.heightSlider = a.dom.heightSlider
      rw [c4, hd]

/-- `handleCanvasClick` pushes one entry through `addWall`, `addWindow` or `addDoor`, or adds
nothing. -/
theorem handleCanvasClick_grows (a : App) (event : ClickEvent) (intersects : List Vec3) :
    ∃ added, Grows a (handleCanvasClick a event intersects) added ∧
      (handleCanvasClick a event intersects).dom.heightSlider = a.dom.heightSlider := by
  cases intersects with
  | nil =>
    simp only [handleCanvasClick]
    split_ifs <;> exact ⟨[], grows_of_core a _ rfl, rfl⟩
  | cons point rest =>
    simp only [handleCanvasClick]
    split_ifs
    · exact addWall_grows { a with mouse := _ } _
    · exact addWindow_grows { a with mouse := _ } _
    · exact addDoor_grows { a with mouse := _ } _
    · exact ⟨[], grows_of_core a _ rfl, rfl⟩
    · exact ⟨[], grows_of_core a _ rfl, rfl⟩
    · exact ⟨[], grows_of_core a _ rfl, rfl⟩

/-- `handleKeyPress` keeps the registry, the counters and the height control. -/
theorem handleKeyPress_core (a : App) (key : String) : (handleKeyPress a key).core = a.core := by
  simp only [handleKeyPress]
  split_ifs
  all_goals first
    | rfl
    | (simp only [App.core, Prod.mk.injEq]
       obtain ⟨_, h2, _, h4, h5, h6, h7⟩ := setMode_frame a "render"
       exact ⟨h2, h4, by rw [h5], h6, h7⟩)
    | (simp only [App.core, Prod.mk.injEq]
       obtain ⟨_, h2, _, h4, h5, h6, h7⟩ := setMode_frame a "bim"
       exact ⟨h2, h4, by rw [h5], h6, h7⟩)

/-- `setMode` keeps the registry, the counters and the height control. -/
theorem setMode_core (a : App) (mode : String) : (setMode a mode).core = a.core := by
  simp only [App.core, Prod.mk.injEq]
  obtain ⟨_, h2, _, h4, h5, h6, h7⟩ := setMode_frame a mode
  exact ⟨h2, h4, by rw [h5], h6, h7⟩

/-- `updateTimeOfDay` keeps the registry, the counters and the height control. -/
theorem updateTimeOfDay_core (m : JSMath) (a : App) (hour : JSNum) :
    (updateTimeOfDay m a hour).core = a.core := by
  unfold updateTimeOfDay
  cases a.state.lights.sun <;> rfl

/-- `exportProject` keeps the registry, the counters and the height control. -/
theorem exportProject_core (a : App) (activeFormat : Option String) (now : Nat)
    (created dataURL : String) (fault : Option ExportFault) :
    (exportProject a activeFormat now created dataURL fault).1.core = a.core := by
  simp only [exportProject, renderImage]
  split_ifs <;> cases fault <;> rfl

/-- Every action moves the registry as `Grows` says, and only `setHeightSlider` changes the
height control. -/
theorem step_grows (m : JSMath) (a : App) (act : Action) :
    ∃ added, Grows a (step m a act) added ∧
      (step m a act).dom.heightSlider = sliderAfter a act := by
  cases act with
  | setHeightSlider v => exact ⟨[], grows_of_same a _ rfl rfl rfl rfl, rfl⟩
  | setColorPicker v => exact ⟨[], grows_of_core a _ rfl, rfl⟩
  | setMaterialSelect v => exact ⟨[], grows_of_core a _ rfl, rfl⟩
  | selectMode mode =>
    exact ⟨[], grows_of_core a _ (setMode_core a mode), (setMode_frame a mode).2.2.2.2.2.2⟩
  | selectTool tool => exact ⟨[], grows_of_core a _ rfl, rfl⟩
  | wall p => exact addWall_grows a p
  | window p => exact addWindow_grows a p
  | door p => exact addDoor_grows a p
  | asset t => exact addAsset_grows a t
  | clear c => exact clearScene_grows m a c
  | click e hits => exact handleCanvasClick_grows a e hits
  | key k =>
    refine ⟨[], grows_of_core a _ (handleKeyPress_core a k), ?_⟩
    have := handleKeyPress_core a k
    simp only [App.core, Prod.mk.injEq] at this
    exact this.2.2.2.2
  | timeOfDay h =>
    refine ⟨[], grows_of_core a _ (updateTimeOfDay_core m a h), ?_⟩
    have := updateTimeOfDay_core m a h
    simp only [App.core, Prod.mk.injEq] at this
    exact this.2.2.2.2
  | exportProject f now created dataURL fault =>
    refine ⟨[], grows_of_core a _ (exportProject_core a f now created dataURL fault), ?_⟩
    have := exportProject_core a f now created dataURL fault
    simp only [App.core, Prod.mk.injEq] at this
    exact this.2.2.2.2

/-- `createDefaultScene` ends by running `createDemoBuilding` and counting the objects, five
references after it started. -/
theorem createDefaultScene_eq (m : JSMath) (a : App) :
    ∃ x : App, createDefaultScene m a = updateObjectCount (createDemoBuilding m x) ∧
      x.nextRef = a.nextRef + 5 ∧ x.state.sceneObjects = a.state.sceneObjects ∧ x.dom = a.dom :=
  ⟨_, rfl, rfl, rfl, rfl⟩

/-- An entry after a move is an old entry or has a reference from the old counter on. -/
theorem Grows.old_or_new {a b : App} {added : List SceneObject} (g : Grows a b added)
    (o : SceneObject) (ho : o ∈ b.state.sceneObjects) :
    o ∈ a.state.sceneObjects ∨ a.nextRef ≤ o.mesh.ref := by
  obtain ⟨g1, g2, _⟩ := g
  have hadd : o ∈ added → a.nextRef ≤ o.mesh.ref := by
    intro hx
    have hm : o.mesh.ref ∈ added.map (fun o => o.mesh.ref) := List.mem_map_of_mem _ hx
    rw [g2, List.mem_range'_1] at hm
    exact hm.1
  rcases g1 with g1 | g1
  · rw [g1, List.mem_append] at ho
    exact ho.imp_right hadd
  · rw [g1] at ho
    exact Or.inr (hadd ho)

/-- A move keeps the meshes of the registry pairwise distinct and below the counter. -/
theorem Grows.refInv {a b : App} {added : List SceneObject} (g : Grows a b added)
    (h : RefInv a) : RefInv b := by
  obtain ⟨hn, hlt⟩ := h
  obtain ⟨g1, g2, g3, _⟩ := g
  have hnew : (added.map (fun o => o.mesh.ref)).Nodup := by
    rw [g2]; exact List.nodup_range' _ _
  have hbound : ∀ o ∈ added, a.nextRef ≤ o.mesh.ref ∧ o.mesh.ref < b.nextRef := by
    intro o hx
    have hm : o.mesh.ref ∈ added.map (fun o => o.mesh.ref) := List.mem_map_of_mem _ hx
    rw [g2, List.mem_range'_1] at hm
    rw [g3]
    exact hm
  rcases g1 with g1 | g1
  · refine ⟨?_, ?_⟩
    · rw [g1, List.map_append]
      refine List.Nodup.append hn hnew ?_
      intro r hr1 hr2
      obtain ⟨o1, ho1, rfl⟩ := List.mem_map.mp hr1
      obtain ⟨o2, ho2, he⟩ := List.mem_map.mp hr2
      have h1 := hlt o1 ho1
      have h2 := (hbound o2 ho2).1
      have he2 : o2.mesh.ref = o1.mesh.ref := he
      omega
    · intro o ho
      rw [g1, List.mem_append] at ho
      rcases ho with ho | ho
      · have := hlt o ho
        omega
      · exact (hbound o ho).2
  · refine ⟨by rw [g1]; exact hnew, ?_⟩
    intro o ho
    rw [g1] at ho
    exact (hbound o ho).2

/-- A move keeps the heights above 0 as long as the height control is above 0. -/
theorem Grows.heightInv {a b : App} {added : List SceneObject} (g : Grows a b added)
    (h : HeightInv a) (hs : b.dom.heightSlider.pos) : HeightInv b := by
  obtain ⟨hp, hh, hw⟩ := h
  obtain ⟨g1, _, _, g4, g5, _⟩ := g
  have addedH : ∀ o ∈ added, ∀ x, o.height = some x → o.type = "wall" ∧ x.pos := by
    intro o ho x hx
    obtain ⟨t, e⟩ := g4 o ho x hx
    exact ⟨t, e ▸ hp⟩
  have addedW : ∀ o ∈ added, o.type = "wall" → ∃ x, o.height = some x ∧ x.pos :=
    fun o ho t => ⟨_, g5 o ho t, hp⟩
  refine ⟨hs, ?_, ?_⟩
  · intro o ho
    rcases g1 with g1 | g1
    · rw [g1, List.mem_append] at ho
      rcases ho with ho | ho
      · exact hh o ho
      · exact addedH o ho
    · rw [g1] at ho
      exact addedH o ho
  · intro o ho
    rcases g1 with g1 | g1
    · rw [g1, List.mem_append] at ho
      rcases ho with ho | ho
      · exact hw o ho
      · exact addedW o ho
    · rw [g1] at ho
      exact addedW o ho

/-- A move keeps the two object counts right. -/
theorem Grows.countInv {a b : App} {added : List SceneObject} (g : Grows a b added)
    (h : CountInv a) : CountInv b :=
  ⟨g.2.2.2.2.2.1 h.1, g.2.2.2.2.2.2 h.2⟩

/-- The application after `createDefaultScene`, started with an empty registry: the registry
is the seven entries of the building, and the three invariants hold. -/
theorem createDefaultScene_inv (m : JSMath) (a : App) (h0 : a.state.sceneObjects = []) :
    RefInv (createDefaultScene m a) ∧ CountInv (createDefaultScene m a) ∧
    (a.dom.heightSlider.pos → HeightInv (createDefaultScene m a)) := by
  obtain ⟨x, hx, hn, ho, hd⟩ := createDefaultScene_eq m a
  obtain ⟨c1, c2, _, c4⟩ := createDemoBuilding_sceneObjects m x
  rw [ho, h0, List.nil_append] at c1
  obtain ⟨d1, d2, _, _⟩ := demoObjects_spec m x
  have objs : (createDefaultScene m a).state.sceneObjects = demoObjects m x := by
    rw [hx]; exact c1
  have next : (createDefaultScene m a).nextRef = x.nextRef + 7 := by
    rw [hx]; exact c2
  have slider : (createDefaultScene m a).dom.heightSlider = a.dom.heightSlider := by
    rw [hx]
    show (createDemoBuilding m x).dom.heightSlider = a.dom.heightSlider
    rw [c4, hd]
  refine ⟨⟨?_, ?_⟩, ?_, ?_⟩
  · rw [objs, d1]; exact List.nodup_range' _ _
  · intro o hmem
    rw [objs] at hmem
    have hm : o.mesh.ref ∈ (demoObjects m x).map (fun o => o.mesh.ref) :=
      List.mem_map_of_mem _ hmem
    rw [d1, List.mem_range'_1] at hm
    rw [next]
    exact hm.2
  · rw [hx]; exact ⟨rfl, rfl⟩
  · intro hp
    refine ⟨by rw [slider]; exact hp, ?_, ?_⟩
    · intro o hmem h hh
      rw [objs] at hmem
      rw [demoObjects_height m x o hmem] at hh
      exact nomatch hh
    · intro o hmem hw
      rw [objs] at hmem
      exact absurd hw (demoObjects_type m x o hmem)

/-- A sequence of actions, cut in two. -/
theorem run_append (m : JSMath) (a : App) (xs ys : List Action) :
    run m a (xs ++ ys) = run m (run m a xs) ys := by
  unfold run
  rw [List.foldl_append]

/-- A sequence of actions keeps the meshes of the registry pairwise distinct; an entry after it
is an entry from before it or has a reference from the old counter on. -/
theorem run_refInv (m : JSMath) (actions : List Action) (a : App) (h : RefInv a) :
    RefInv (run m a actions) ∧ a.nextRef ≤ (run m a actions).nextRef ∧
    ∀ o ∈ (run m a actions).state.sceneObjects,
      o ∈ a.state.sceneObjects ∨ a.nextRef ≤ o.mesh.ref := by
  induction actions generalizing a with
  | nil => exact ⟨h, Nat.le_refl _, fun o ho => Or.inl ho⟩
  | cons act rest ih =>
    obtain ⟨added, g, _⟩ := step_grows m a act
    obtain ⟨i1, i2, i3⟩ := ih (step m a act) (g.refInv h)
    have hle : a.nextRef ≤ (step m a act).nextRef := by
      rw [g.2.2.1]; exact Nat.le_add_right _ _
    refine ⟨i1, Nat.le_trans hle i2, ?_⟩
    intro o ho
    rcases i3 o ho with hs | hs
    · exact g.old_or_new o hs
    · exact Or.inr (Nat.le_trans hle hs)

/-- A sequence of actions keeps the two object counts right. -/
theorem run_countInv (m : JSMath) (actions : List Action) (a : App) (h : CountInv a) :
    CountInv (run m a actions) := by
  induction actions generalizing a with
  | nil => exact h
  | cons act rest ih =>
    obtain ⟨added, g, _⟩ := step_grows m a act
    exact ih (step m a act) (g.countInv h)

/-- A sequence of actions that only sets the height control to numbers above 0 keeps the
heights of the registry above 0. -/
theorem run_heightInv (m : JSMath) (actions : List Action) (a : App) (h : HeightInv a)
    (hv : ∀ v, Action.setHeightSlider v ∈ actions → v.pos) : HeightInv (run m a actions) := by
  induction actions generalizing a with
  | nil => exact h
  | cons act rest ih =>
    obtain ⟨added, g, hs⟩ := step_grows m a act
    have hpos : (step m a act).dom.heightSlider.pos := by
      rw [hs]
      cases act with
      | setHeightSlider v => exact hv v (List.mem_cons_self _ _)
      | _ => exact h.1
    exact ih (step m a act) (g.heightInv h hpos) (fun v hm => hv v (List.mem_cons_of_mem _ hm))

/-- No entry of the building is an asset. -/
theorem demoObjects_not_asset (m : JSMath) (x : App) (o : SceneObject)
    (ho : o ∈ demoObjects m x) : o.type ≠ "asset" := by
  have hm : o.type ∈ (demoObjects m x).map (fun o => o.type) := List.mem_map_of_mem _ ho
  rw [(demoObjects_spec m x).2.2.1] at hm
  intro hw
  rw [hw] at hm
  exact absurd hm (by decide)

/-- The `switch` of `addAsset` builds a mesh for the four asset names only. -/
theorem assetBody_eq_none (t : String) (h : t ∉ assetTypes) : assetBody t = none := by
  simp only [assetTypes, List.mem_cons, List.mem_singleton, List.not_mem_nil, or_false,
    not_or] at h
  obtain ⟨h1, h2, h3, h4⟩ := h
  simp [assetBody, h1, h2, h3, h4]

/-- A name for which the `switch` of `addAsset` builds a mesh is one of the four. -/
theorem mem_assetTypes_of_assetBody (t : String) (body : Body) (h : assetBody t = some body) :
    t ∈ assetTypes := by
  by_contra hn
  rw [assetBody_eq_none t hn] at h
  exact nomatch h

/-- An operation that keeps the registry adds no entry. -/
theorem assetOk_of_same (a b : App) (h : b.state.sceneObjects = a.state.sceneObjects)
    (o : SceneObject) (ho : o ∈ b.state.sceneObjects) : o ∈ a.state.sceneObjects ∨ AssetOk o :=
  Or.inl (h ▸ ho)

/-- An operation that pushes one entry: an entry after it is an old one or the new one. -/
theorem assetOk_of_push (a b : App) (n : SceneObject)
    (h : b.state.sceneObjects = a.state.sceneObjects ++ [n]) (hn : AssetOk n)
    (o : SceneObject) (ho : o ∈ b.state.sceneObjects) :
    o ∈ a.state.sceneObjects ∨ AssetOk o := by
  rw [h, List.mem_append, List.mem_singleton] at ho
  rcases ho with ho | ho
  · exact Or.inl ho
  · exact Or.inr (ho ▸ hn)

/-- After `addWall` an entry is an old one or no asset. -/
theorem addWall_assetOk (a : App) (position : Option Vec3) (o : SceneObject)
    (ho : o ∈ (addWall a position).state.sceneObjects) :
    o ∈ a.state.sceneObjects ∨ AssetOk o :=
  assetOk_of_push a _ _ (addWall_sceneObjects a position)
    (fun h => absurd (show "wall" = "asset" from h) (by decide)) o ho

/-- After `addWindow` an entry is an old one or no asset. -/
theorem addWindow_assetOk (a : App) (position : Option Vec3) (o : SceneObject)
    (ho : o ∈ (addWindow a position).state.sceneObjects) :
    o ∈ a.state.sceneObjects ∨ AssetOk o := by
  obtain ⟨mesh, h⟩ := addWindow_sceneObjects a position
  exact assetOk_of_push a _ _ h (fun h => absurd (show "window" = "asset" from h) (by decide))
    o ho

/-- After `addDoor` an entry is an old one or no asset. -/
theorem addDoor_assetOk (a : App) (position : Option Vec3) (o : SceneObject)
    (ho : o ∈ (addDoor a position).state.sceneObjects) :
    o ∈ a.state.sceneObjects ∨ AssetOk o := by
  obtain ⟨mesh, h⟩ := addDoor_sceneObjects a position
  exact assetOk_of_push a _ _ h (fun h => absurd (show "door" = "asset" from h) (by decide))
    o ho

/-- After `addAsset` an entry is an old one or an asset with one of the four names. -/
theorem addAsset_assetOk (a : App) (t : String) (o : SceneObject)
    (ho : o ∈ (addAsset a t).state.sceneObjects) :
    o ∈ a.state.sceneObjects ∨ AssetOk o := by
  cases hb : assetBody t with
  | none =>
    have h : addAsset a t = a := by simp [addAsset, hb]
    rw [h] at ho
    exact Or.inl ho
  | some body =>
    obtain ⟨mesh, h⟩ := addAsset_sceneObjects a t body hb
    exact assetOk_of_push a _ _ h (fun _ => ⟨t, mem_assetTypes_of_assetBody t body hb, rfl⟩)
      o ho

/-- After `clearScene` an entry is an old one or no asset. -/
theorem clearScene_assetOk (m : JSMath) (a : App) (confirmed : Bool) (o : SceneObject)
    (ho : o ∈ (clearScene m a confirmed).state.sceneObjects) :
    o ∈ a.state.sceneObjects ∨ AssetOk o := by
  cases confirmed with
  | false => exact Or.inl ho
  | true =>
    rw [clearScene_true] at ho
    generalize hx : ({ a.state.sceneObjects.foldl (fun acc obj => sceneRemove acc obj.mesh.ref) a
      with state := { (a.state.sceneObjects.foldl
        (fun acc obj => sceneRemove acc obj.mesh.ref) a).state with sceneObjects := [] } } : App)
      = x at ho
    have he : x.state.sceneObjects = [] := by rw [← hx]
    obtain ⟨c1, _⟩ := createDemoBuilding_sceneObjects m x
    rw [he, List.nil_append] at c1
    have ho2 : o ∈ (createDemoBuilding m x).state.sceneObjects := ho
    rw [c1] at ho2
    exact Or.inr (fun h => absurd h (demoObjects_not_asset m x o ho2))

/-- After `handleCanvasClick` an entry is an old one or no asset. -/
theorem handleCanvasClick_assetOk (a : App) (event : ClickEvent) (intersects : List Vec3)
    (o : SceneObject) (ho : o ∈ (handleCanvasClick a event intersects).state.sceneObjects) :
    o ∈ a.state.sceneObjects ∨ AssetOk o := by
  cases intersects with
  | nil =>
    simp only [handleCanvasClick] at ho
    split_ifs at ho <;> exact Or.inl ho
  | cons point rest =>
    simp only [handleCanvasClick] at ho
    split_ifs at ho
    · exact addWall_assetOk { a with mouse := _ } _ o ho
    · exact addWindow_assetOk { a with mouse := _ } _ o ho
    · exact addDoor_assetOk { a with mouse := _ } _ o ho
    · exact Or.inl ho
    · exact Or.inl ho
    · exact Or.inl ho

/-- After any action an entry of the registry is an old one, or is no asset, or is an asset
with one of the four names. -/
theorem step_assetOk (m : JSMath) (a : App) (act : Action) (o : SceneObject)
    (ho : o ∈ (step m a act).state.sceneObjects) : o ∈ a.state.sceneObjects ∨ AssetOk o := by
  cases act with
  | setHeightSlider v => exact Or.inl ho
  | setColorPicker v => exact Or.inl ho
  | setMaterialSelect v => exact Or.inl ho
  | selectMode mode => exact assetOk_of_same a _ (setMode_frame a mode).2.1 o ho
  | selectTool tool => exact Or.inl ho
  | wall p => exact addWall_assetOk a p o ho
  | window p => exact addWindow_assetOk a p o ho
  | door p => exact addDoor_assetOk a p o ho
  | asset t => exact addAsset_assetOk a t o ho
  | clear c => exact clearScene_assetOk m a c o ho
  | click e hits => exact handleCanvasClick_assetOk a e hits o ho
  | key k =>
    have h := handleKeyPress_core a k
    simp only [App.core, Prod.mk.injEq] at h
    exact assetOk_of_same a _ h.1 o ho
  | timeOfDay h =>
    have h := updateTimeOfDay_core m a h
    simp only [App.core, Prod.mk.injEq] at h
    exact assetOk_of_same a _ h.1 o ho
  | exportProject f now created dataURL fault =>
    have h := exportProject_core a f now created dataURL fault
    simp only [App.core, Prod.mk.injEq] at h
    exact assetOk_of_same a _ h.1 o ho

/-- A sequence of actions keeps every asset of the registry on one of the four names. -/
theorem run_assetOk (m : JSMath) (actions : List Action) (a : App)
    (h : ∀ o ∈ a.state.sceneObjects, AssetOk o) :
    ∀ o ∈ (run m a actions).state.sceneObjects, AssetOk o := by
  induction actions generalizing a with
  | nil => exact h
  | cons act rest ih =>
    refine ih (step m a act) ?_
    intro o ho
    rcases step_assetOk m a act o ho with hold | hnew
    · exact h o hold
    · exact hnew

/-- After `createDefaultScene`, started with an empty registry, no entry is an asset. -/
theorem createDefaultScene_assetOk (m : JSMath) (a : App) (h0 : a.state.sceneObjects = []) :
    ∀ o ∈ (createDefaultScene m a).state.sceneObjects, AssetOk o := by
  obtain ⟨x, hx, _, ho, _⟩ := createDefaultScene_eq m a
  obtain ⟨c1, _⟩ := createDemoBuilding_sceneObjects m x
  rw [ho, h0, List.nil_append] at c1
  intro o hmem
  rw [hx] at hmem
  have hmem2 : o ∈ (createDemoBuilding m x).state.sceneObjects := hmem
  rw [c1] at hmem2
  exact fun h => absurd h (demoObjects_not_asset m x o hmem2)

/-- What `updateWeather` does to the fog: it sets it for foggy and leaves it for any other
weather. -/
theorem updateWeather_fog (a : App) (weather : String) :
    (updateWeather a weather).scene.fog =
      if weather = "foggy" then some { color := 0xd3d3d3, near := .num 10, far := .num 50 }
      else a.scene.fog := by
  unfold updateWeather
  split_ifs <;> first | rfl | (subst_vars; contradiction)

/-- Reading an array back reads each item back, in place. -/
theorem reparseItems_eq_map (items : List JSVal) :
    JSVal.reparseItems items = items.map JSVal.reparse := by
  induction items with
  | nil => rfl
  | cons v vs ih => simp [JSVal.reparseItems, ih]

/-- A number read back from the text is the number as JSON carries it. -/
theorem reparse_num (n : JSNum) : (JSVal.num n).reparse = JSVal.ofJsonNum n := by
  cases n <;> rfl

/-- A string read back from the text is the string. -/
theorem reparse_str (t : String) : (JSVal.str t).reparse = JSVal.str t := rfl

/-- An array read back from the text is the array of its items read back. -/
theorem reparse_arr (items : List JSVal) :
    (JSVal.arr items).reparse = JSVal.arr (items.map JSVal.reparse) := by
  rw [← reparseItems_eq_map]
  rfl

/-- An object read back from the text is the object of its properties read back. -/
theorem reparse_obj (fields : List (String × JSVal)) :
    (JSVal.obj fields).reparse = JSVal.obj (JSVal.reparseFields fields) := rfl

/-- Reading an array back keeps its length. -/
theorem reparseItems_length (items : List JSVal) :
    (JSVal.reparseItems items).length = items.length := by
  rw [reparseItems_eq_map, List.length_map]

/-! ## Creation -/

/-- C1: each of `addWall`, `addWindow` and `addDoor` makes `state.sceneObjects` exactly one
longer, and the registry then holds an element of type wall, window or door respectively; the
wall carries the material, colour and height read from the controls. This holds in every state,
modeling mode included. -/
theorem add_element_registers (a : App) (position : Option Vec3) :
    ((addWall a position).state.sceneObjects.length = a.state.sceneObjects.length + 1 ∧
      ∃ o ∈ (addWall a position).state.sceneObjects, o.type = "wall" ∧
        o.material = some a.dom.materialSelect ∧ o.color = some a.dom.colorPicker ∧
        o.height = some a.dom.heightSlider) ∧
    ((addWindow a position).state.sceneObjects.length = a.state.sceneObjects.length + 1 ∧
      ∃ o ∈ (addWindow a position).state.sceneObjects, o.type = "window") ∧
    ((addDoor a position).state.sceneObjects.length = a.state.sceneObjects.length + 1 ∧
      ∃ o ∈ (addDoor a position).state.sceneObjects, o.type = "door") := by
  obtain ⟨w, hw⟩ := addWindow_sceneObjects a position
  obtain ⟨d, hd⟩ := addDoor_sceneObjects a position
  refine ⟨⟨?_, ?_⟩, ⟨?_, ?_⟩, ⟨?_, ?_⟩⟩
  · rw [addWall_sceneObjects]; simp
  · rw [addWall_sceneObjects]
    exact ⟨_, List.mem_append_right _ (List.mem_singleton_self _), rfl, rfl, rfl, rfl⟩
  · rw [hw]; simp
  · rw [hw]
    exact ⟨_, List.mem_append_right _ (List.mem_singleton_self _), rfl⟩
  · rw [hd]; simp
  · rw [hd]
    exact ⟨_, List.mem_append_right _ (List.mem_singleton_self _), rfl⟩

/-- C2: the registry keeps insertion order. After `addWall`, `addWindow`, `addDoor`, or
`addAsset` with one of the four asset names, the new contents of `state.sceneObjects` are the
previous contents, unchanged and in the same order, followed by the one new element. -/
theorem add_element_appends (a : App) (position : Option Vec3) (t : String)
    (ht : t = "tree" ∨ t = "person" ∨ t = "car" ∨ t = "plant") :
    (∃ o, (addWall a position).state.sceneObjects = a.state.sceneObjects ++ [o] ∧
      o.type = "wall") ∧
    (∃ o, (addWindow a position).state.sceneObjects = a.state.sceneObjects ++ [o] ∧
      o.type = "window") ∧
    (∃ o, (addDoor a position).state.sceneObjects = a.state.sceneObjects ++ [o] ∧
      o.type = "door") ∧
    (∃ o, (addAsset a t).state.sceneObjects = a.state.sceneObjects ++ [o] ∧
      o.type = "asset" ∧ o.assetType = some t) := by
  obtain ⟨w, hw⟩ := addWindow_sceneObjects a position
  obtain ⟨d, hd⟩ := addDoor_sceneObjects a position
  obtain ⟨body, hb⟩ := assetBody_isSome t ht
  obtain ⟨s, hs⟩ := addAsset_sceneObjects a t body hb
  exact ⟨⟨_, addWall_sceneObjects a position, rfl⟩, ⟨_, hw, rfl⟩, ⟨_, hd, rfl⟩, ⟨_, hs, rfl, rfl⟩⟩

/-- Witness of C2: a tree added to the sample application. -/
theorem add_element_appends_witness :
    (∃ o, (addWall sampleApp none).state.sceneObjects = sampleApp.state.sceneObjects ++ [o] ∧
      o.type = "wall") ∧
    (∃ o, (addWindow sampleApp none).state.sceneObjects = sampleApp.state.sceneObjects ++ [o] ∧
      o.type = "window") ∧
    (∃ o, (addDoor sampleApp none).state.sceneObjects = sampleApp.state.sceneObjects ++ [o] ∧
      o.type = "door") ∧
    (∃ o, (addAsset sampleApp "tree").state.sceneObjects = sampleApp.state.sceneObjects ++ [o] ∧
      o.type = "asset" ∧ o.assetType = some "tree") :=
  add_element_appends sampleApp none "tree" (Or.inl rfl)

/-- C3, as stated, fails: with the material control at "marble", which is none of brick,
concrete, wood, glass, `addWall` registers one wall whose `material` is "marble"; no element
of the registry has the material "default". -/
theorem addWall_marble_not_default :
    marbleApp.dom.materialSelect ∉ ["brick", "concrete", "wood", "glass"] ∧
    (addWall marbleApp none).state.sceneObjects.map (fun o => o.material) = [some "marble"] ∧
    ¬ ∃ o ∈ (addWall marbleApp none).state.sceneObjects, o.material = some "default" := by
  decide

/-- C3, amended: for a material name that is none of brick, concrete, wood, glass, `addWall`
(a total function: no error) appends one wall whose mesh material is the default one, built
from the colour alone, and whose recorded `material` is the input name unchanged. -/
theorem addWall_unknown_material (a : App) (position : Option Vec3)
    (h : a.dom.materialSelect ∉ ["brick", "concrete", "wood", "glass"]) :
    ∃ o, (addWall a position).state.sceneObjects = a.state.sceneObjects ++ [o] ∧
      o.type = "wall" ∧
      o.material = some a.dom.materialSelect ∧
      o.mesh.body = .mesh (.box (.num 3) a.dom.heightSlider (.num 0.3))
        { color := .css a.dom.colorPicker } := by
  refine ⟨_, addWall_sceneObjects a position, rfl, rfl, ?_⟩
  simp only [List.mem_cons, List.mem_singleton, List.not_mem_nil, or_false, not_or] at h
  obtain ⟨h1, h2, h3, h4⟩ := h
  simp [wallMaterial, h1, h2, h3, h4]

/-- Witness of the amended C3 at the material name "marble". -/
theorem addWall_unknown_material_witness :
    ∃ o, (addWall marbleApp none).state.sceneObjects = marbleApp.state.sceneObjects ++ [o] ∧
      o.type = "wall" ∧
      o.material = some marbleApp.dom.materialSelect ∧
      o.mesh.body = .mesh (.box (.num 3) marbleApp.dom.heightSlider (.num 0.3))
        { color := .css marbleApp.dom.colorPicker } :=
  addWall_unknown_material marbleApp none (by decide)

/-- C4: whatever the registry held, a confirmed `clearScene` leaves exactly the seven elements
of the demonstration building (building, roof, four windows, door, in that order); apart from
the identity of the meshes the result is the same for any two applications, so the count is 7
and never the count before the call. -/
theorem clearScene_reseeds (m : JSMath) (a b : App) :
    (clearScene m a true).state.sceneObjects.map (fun o => o.type) =
      ["building", "roof", "window", "window", "window", "window", "door"] ∧
    (clearScene m a true).state.sceneObjects.length = 7 ∧
    (clearScene m a true).state.sceneObjects.map SceneObject.content =
      (clearScene m b true).state.sceneObjects.map SceneObject.content ∧
    (clearScene m a true).state.sceneObjects.length =
      (clearScene m b true).state.sceneObjects.length :=
  ⟨rfl, rfl, rfl, rfl⟩

/-! ## Surface area -/

/-- C5, as stated, fails: with a height control that does not parse, `addWall` registers a wall
whose height is NaN; `updateSurfaceArea` skips it and shows the area 0, while three times its
height, and so the sum over the walls, is NaN. -/
theorem surfaceArea_nan_wall_skipped :
    (addWall nanHeightApp none).state.sceneObjects.map (fun o => (o.type, o.height)) =
      [("wall", some .nan)] ∧
    (addWall nanHeightApp none).dom.surfaceArea = .num 0 ∧
    surfaceArea (addWall nanHeightApp none).state.sceneObjects = .num 0 ∧
    heightWeightedArea (addWall nanHeightApp none).state.sceneObjects = .nan ∧
    surfaceArea (addWall nanHeightApp none).state.sceneObjects ≠
      heightWeightedArea (addWall nanHeightApp none).state.sceneObjects := by
  decide

/-- C5, amended: for every registry whose walls all carry a number as height, the area computed
by `updateSurfaceArea` is the sum over the walls of 3 times the height; the other elements add
nothing, and `updateSurfaceArea` stores that value for display. -/
theorem surfaceArea_numeric_walls (a : App)
    (h : ∀ o ∈ a.state.sceneObjects, o.type = "wall" → ∃ q, o.height = some (.num q)) :
    surfaceArea a.state.sceneObjects = heightWeightedArea a.state.sceneObjects ∧
    surfaceArea a.state.sceneObjects = .num ((a.state.sceneObjects.map wallTerm).sum) ∧
    (updateSurfaceArea a).dom.surfaceArea = heightWeightedArea a.state.sceneObjects := by
  have h1 : surfaceArea a.state.sceneObjects = .num ((a.state.sceneObjects.map wallTerm).sum) := by
    unfold surfaceArea
    rw [foldl_surfaceAreaStep, zero_add]
  have h2 : heightWeightedArea a.state.sceneObjects =
      .num ((a.state.sceneObjects.map wallTerm).sum) := by
    unfold heightWeightedArea
    rw [foldl_heightWeighted _ _ h, zero_add]
  exact ⟨h1.trans h2.symm, h1, h1.trans h2.symm⟩

/-- Witness of the amended C5: three walls of heights 2, 3 and 4 next to the demonstration
building give the area 27. -/
theorem surfaceArea_numeric_walls_witness :
    surfaceArea ({ initialApp with state := { initialApp.state with
        sceneObjects := initialApp.state.sceneObjects ++
          [sampleWall 2, sampleWall 3, sampleWall 4] } } : App).state.sceneObjects = .num 27 := by
  have key := (surfaceArea_numeric_walls
    { initialApp with state := { initialApp.state with
        sceneObjects := initialApp.state.sceneObjects ++
          [sampleWall 2, sampleWall 3, sampleWall 4] } }
    (by
      intro o ho hw
      have hmem : o ∈ initialApp.state.sceneObjects ++
          [sampleWall 2, sampleWall 3, sampleWall 4] := ho
      rcases List.mem_append.mp hmem with hd | hn
      · exact absurd hw ((by decide : ∀ x ∈ initialApp.state.sceneObjects, x.type ≠ "wall") o hd)
      · simp only [List.mem_cons, List.mem_singleton, List.not_mem_nil, or_false] at hn
        rcases hn with hn | hn | hn <;> subst hn
        · exact ⟨2, rfl⟩
        · exact ⟨3, rfl⟩
        · exact ⟨4, rfl⟩)).2.1
  rw [key]
  have hsum : ((initialApp.state.sceneObjects ++
      [sampleWall 2, sampleWall 3, sampleWall 4]).map wallTerm).sum = 27 := by
    have hd : initialApp.state.sceneObjects.map wallTerm = [0, 0, 0, 0, 0, 0, 0] := by decide
    rw [List.map_append, hd]
    simp [wallTerm, sampleWall]
    norm_num
  exact congrArg JSNum.num hsum

/-! ## Native export -/

/-- C6: for every registry, the document of `exportAsJSON`, read back from its JSON text,
reports `stats.objectCount` equal to `state.sceneObjects.length`, and its `scene.objects` is an
array of that same length. -/
theorem exportAsJSON_objectCount (a : App) (created : String) :
    (((exportAsJSON a created).reparse.get "stats").get "objectCount" =
      .num (.num a.state.sceneObjects.length)) ∧
    ∃ items, ((exportAsJSON a created).reparse.get "scene").get "objects" = .arr items ∧
      items.length = a.state.sceneObjects.length := by
  refine ⟨?_, JSVal.reparseItems (a.state.sceneObjects.map serializeObject), ?_, ?_⟩
  · simp [exportAsJSON, JSVal.reparse, JSVal.reparseFields, JSVal.get]
  · simp [exportAsJSON, JSVal.reparse, JSVal.reparseFields, JSVal.get]
  · rw [reparseItems_length, List.length_map]

/-- The object `projectData` of `exportAsJSON`, before it is written as text: `scene.objects` is
the registry mapped element by element in registry order, each entry with the type, position,
rotation, scale, material, colour and height of its element; the object has the version and the
creation timestamp, and under `scene.lights` the ambient intensity and the sun position of the
lights that exist. -/
theorem exportAsJSON_document (a : App) (created : String) :
    (((exportAsJSON a created).get "scene").get "objects" =
      .arr (a.state.sceneObjects.map serializeObject)) ∧
    (∀ o : SceneObject,
      (serializeObject o).get "type" = .str o.type ∧
      (serializeObject o).get "position" = .arr [.num o.mesh.position.x, .num o.mesh.position.y,
        .num o.mesh.position.z] ∧
      (serializeObject o).get "rotation" = .arr [.num o.mesh.rotation.x, .num o.mesh.rotation.y,
        .num o.mesh.rotation.z, .str o.mesh.rotation.order] ∧
      (serializeObject o).get "scale" = .arr [.num o.mesh.scale.x, .num o.mesh.scale.y,
        .num o.mesh.scale.z] ∧
      (serializeObject o).get "material" = (match o.material with
        | some s => .str s
        | none => .undefined) ∧
      (serializeObject o).get "color" = (match o.color with
        | some s => .str s
        | none => .undefined) ∧
      (serializeObject o).get "height" = (match o.height with
        | some n => .num n
        | none => .undefined)) ∧
    (((exportAsJSON a created).get "metadata").get "version" = .str "1.0") ∧
    (((exportAsJSON a created).get "metadata").get "created" = .str created) ∧
    ((((exportAsJSON a created).get "scene").get "lights").get "ambient" =
      (match a.state.lights.ambient with
        | some l => .num l.intensity
        | none => .undefined)) ∧
    ((((exportAsJSON a created).get "scene").get "lights").get "sun" =
      (match a.state.lights.sun with
        | some l => .arr [.num l.position.x, .num l.position.y, .num l.position.z]
        | none => .undefined)) ∧
    (((exportAsJSON a created).reparse.get "scene").get "objects" =
      .arr (a.state.sceneObjects.map (fun o => (serializeObject o).reparse))) ∧
    (∀ o : SceneObject, (serializeObject o).reparse.get "type" = .str o.type) ∧
    (((exportAsJSON a created).reparse.get "metadata").get "version" = .str "1.0") ∧
    (((exportAsJSON a created).reparse.get "metadata").get "created" = .str created) := by
  refine ⟨rfl, ?_, rfl, rfl, ?_, ?_, ?_, ?_, ?_, ?_⟩
  · intro o
    refine ⟨rfl, rfl, rfl, rfl, ?_, ?_, ?_⟩
    · cases h : o.material <;> simp [serializeObject, JSVal.get, JSVal.ofOptString, h]
    · cases h : o.color <;> simp [serializeObject, JSVal.get, JSVal.ofOptString, h]
    · cases h : o.height <;> simp [serializeObject, JSVal.get, JSVal.ofOptNum, h]
  · cases h : a.state.lights.ambient <;> simp [exportAsJSON, JSVal.get, JSVal.ofOptNum, h]
  · cases h : a.state.lights.sun <;> simp [exportAsJSON, JSVal.get, Vec3.toArray, h]
  · simp [exportAsJSON, JSVal.reparse, JSVal.reparseFields, JSVal.get, reparseItems_eq_map]
  · intro o
    simp [serializeObject, JSVal.reparse, JSVal.reparseFields, JSVal.get, Vec3.toArray,
      Euler.toArray]
  · simp [exportAsJSON, JSVal.reparse, JSVal.reparseFields, JSVal.get]
  · simp [exportAsJSON, JSVal.reparse, JSVal.reparseFields, JSVal.get]

/-- C7, as stated, fails: with a height control that does not parse, `addWall` registers a wall
whose height is NaN and, no position given, whose position is (0, NaN, 0); in the exported text
read back the entry of that wall has `height` null and `position` [0, null, 0], not the height
and the position of the element. -/
theorem exportAsJSON_nan_written_null :
    (addWall nanHeightApp none).state.sceneObjects.map
        (fun o => (o.type, o.height, o.mesh.position)) =
      [("wall", some .nan, ⟨.num 0, .nan, .num 0⟩)] ∧
    ((exportAsJSON (addWall nanHeightApp none) "2026-01-01T00:00:00.000Z").reparse.get
        "scene").get "objects" =
      .arr [.obj
        [ ("type", .str "wall"),
          ("position", .arr [.num (.num 0), .null, .num (.num 0)]),
          ("rotation", .arr [.num (.num 0), .num (.num 0), .num (.num 0), .str "XYZ"]),
          ("scale", .arr [.num (.num 1), .num (.num 1), .num (.num 1)]),
          ("material", .str "brick"),
          ("color", .str "#ffffff"),
          ("height", .null) ]] ∧
    JSVal.null ≠ JSVal.num .nan :=
  ⟨by decide, rfl, fun h => nomatch h⟩

/-- C7, amended: in the exported text read back, `scene.objects` has one entry per element of
the registry, in registry order; the entry carries the type of its element and its position,
rotation, scale, material, colour and height as JSON writes them: a finite number and a string
unchanged, NaN as `null`, and no key for a material, colour or height the element does not
have. The document carries the version and the creation timestamp, and under `scene.lights`
the ambient intensity and the sun position of the lights that exist, written the same way. -/
theorem exportAsJSON_text (a : App) (created : String) :
    (((exportAsJSON a created).reparse.get "scene").get "objects" =
      .arr (a.state.sceneObjects.map (fun o => (serializeObject o).reparse))) ∧
    (∀ o : SceneObject,
      (serializeObject o).reparse.get "type" = .str o.type ∧
      (serializeObject o).reparse.get "position" =
        .arr [.ofJsonNum o.mesh.position.x, .ofJsonNum o.mesh.position.y,
          .ofJsonNum o.mesh.position.z] ∧
      (serializeObject o).reparse.get "rotation" =
        .arr [.ofJsonNum o.mesh.rotation.x, .ofJsonNum o.mesh.rotation.y,
          .ofJsonNum o.mesh.rotation.z, .str o.mesh.rotation.order] ∧
      (serializeObject o).reparse.get "scale" =
        .arr [.ofJsonNum o.mesh.scale.x, .ofJsonNum o.mesh.scale.y, .ofJsonNum o.mesh.scale.z] ∧
      (serializeObject o).reparse.get "material" = (match o.material with
        | some s => .str s
        | none => .undefined) ∧
      (serializeObject o).reparse.get "color" = (match o.color with
        | some s => .str s
        | none => .undefined) ∧
      (serializeObject o).reparse.get "height" = (match o.height with
        | some (.num q) => .num (.num q)
        | some .nan => .null
        | none => .undefined)) ∧
    (((exportAsJSON a created).reparse.get "metadata").get "version" = .str "1.0") ∧
    (((exportAsJSON a created).reparse.get "metadata").get "created" = .str created) ∧
    ((((exportAsJSON a created).reparse.get "scene").get "lights").get "ambient" =
      (match a.state.lights.ambient with
        | some l => .ofJsonNum l.intensity
        | none => .undefined)) ∧
    ((((exportAsJSON a created).reparse.get "scene").get "lights").get "sun" =
      (match a.state.lights.sun with
        | some l => .arr [.ofJsonNum l.position.x, .ofJsonNum l.position.y,
            .ofJsonNum l.position.z]
        | none => .undefined)) := by
  refine ⟨?_, ?_, ?_, ?_, ?_, ?_⟩
  · simp [exportAsJSON, reparse_obj, reparse_arr, JSVal.reparseFields, JSVal.get]
  · intro o
    refine ⟨?_, ?_, ?_, ?_, ?_, ?_, ?_⟩
    all_goals
      rcases hm : o.material with _ | ms <;> rcases hc : o.color with _ | cs <;>
        rcases hh : o.height with _ | (_ | q) <;>
        simp [serializeObject, reparse_obj, reparse_arr, reparse_str, reparse_num,
          JSVal.reparseFields, JSVal.get, Vec3.toArray, Euler.toArray, JSVal.ofOptString,
          JSVal.ofOptNum, JSVal.ofJsonNum, hm, hc, hh]
  · simp [exportAsJSON, reparse_obj, reparse_str, JSVal.reparseFields, JSVal.get]
  · simp [exportAsJSON, reparse_obj, reparse_str, JSVal.reparseFields, JSVal.get]
  · rcases h : a.state.lights.ambient with _ | l <;> rcases hs : a.state.lights.sun with _ | t <;>
      simp [exportAsJSON, reparse_obj, reparse_arr, reparse_str, reparse_num,
        JSVal.reparseFields, JSVal.get, Vec3.toArray, JSVal.ofOptNum, h, hs]
  · rcases h : a.state.lights.ambient with _ | l <;> rcases hs : a.state.lights.sun with _ | t <;>
      simp [exportAsJSON, reparse_obj, reparse_arr, reparse_str, reparse_num,
        JSVal.reparseFields, JSVal.get, Vec3.toArray, JSVal.ofOptNum, h, hs]

/-! ## Placement by pointer -/

/-- C8: with the wall, window or door tool active, a click whose ray hits nothing mutates
nothing: `state` (so `state.sceneObjects` and its length), the scene, the document and the
reference counter are the same before and after `handleCanvasClick`. -/
theorem handleCanvasClick_miss (a : App) (event : ClickEvent)
    (h : a.state.activeTool = "wall" ∨ a.state.activeTool = "window" ∨
      a.state.activeTool = "door") :
    (handleCanvasClick a event []).state.sceneObjects = a.state.sceneObjects ∧
    (handleCanvasClick a event []).state.sceneObjects.length = a.state.sceneObjects.length ∧
    (handleCanvasClick a event []).state = a.state ∧
    (handleCanvasClick a event []).scene = a.scene ∧
    (handleCanvasClick a event []).dom = a.dom ∧
    (handleCanvasClick a event []).nextRef = a.nextRef := by
  have hf : a.state.activeTool ≠ "furniture" := by
    rcases h with h | h | h <;> rw [h] <;> decide
  simp [handleCanvasClick, hf]

/-- Witness of C8: the sample application after `createDefaultScene`, wall tool active. -/
theorem handleCanvasClick_miss_witness :
    (initialApp.state.activeTool = "wall" ∨ initialApp.state.activeTool = "window" ∨
      initialApp.state.activeTool = "door") ∧
    (handleCanvasClick initialApp sampleClick []).state.sceneObjects =
      initialApp.state.sceneObjects ∧
    (handleCanvasClick initialApp sampleClick []).state.sceneObjects.length =
      initialApp.state.sceneObjects.length ∧
    (handleCanvasClick initialApp sampleClick []).state = initialApp.state ∧
    (handleCanvasClick initialApp sampleClick []).scene = initialApp.scene ∧
    (handleCanvasClick initialApp sampleClick []).dom = initialApp.dom ∧
    (handleCanvasClick initialApp sampleClick []).nextRef = initialApp.nextRef :=
  ⟨Or.inl rfl, handleCanvasClick_miss initialApp sampleClick (Or.inl rfl)⟩

/-- C9: for every state and every click, hit or miss, whatever the tool and the mode,
`state.activeTool` and `state.mode` are the same after `handleCanvasClick` as before. -/
theorem handleCanvasClick_keeps_tool (a : App) (event : ClickEvent) (intersects : List Vec3) :
    (handleCanvasClick a event intersects).state.activeTool = a.state.activeTool ∧
    (handleCanvasClick a event intersects).state.mode = a.state.mode := by
  cases intersects with
  | nil =>
    simp only [handleCanvasClick]
    split_ifs <;> exact ⟨rfl, rfl⟩
  | cons point rest =>
    simp only [handleCanvasClick]
    split_ifs <;> exact ⟨rfl, rfl⟩

/-! ## Time of day -/

/-- C10: for every hour `q`, in particular every hour of [0,24), and every application with a
sun light, `updateTimeOfDay` sets the sun intensity to 0.5 when `q < 6` or `q > 18`, to 0.8 when
`6 ≤ q < 8` or `16 < q ≤ 18`, and to 1.2 otherwise, that is when `8 ≤ q ≤ 16`; the three bands
are pairwise disjoint and cover the hour. -/
theorem updateTimeOfDay_bands (m : JSMath) (a : App) (sun : SunLight) (q : ℚ)
    (hsun : a.state.lights.sun = some sun) :
    (∃ s, (updateTimeOfDay m a (.num q)).state.lights.sun = some s ∧
      (nightBand q → s.intensity = .num 0.5) ∧
      (warmBand q → s.intensity = .num 0.8) ∧
      (¬ nightBand q ∧ ¬ warmBand q → s.intensity = .num 1.2) ∧
      (dayBand q → s.intensity = .num 1.2)) ∧
    (nightBand q ∨ warmBand q ∨ dayBand q) ∧
    ¬ (nightBand q ∧ warmBand q) ∧ ¬ (nightBand q ∧ dayBand q) ∧ ¬ (warmBand q ∧ dayBand q) ∧
    (dayBand q ↔ ¬ nightBand q ∧ ¬ warmBand q) := by
  have hpart : (nightBand q ∨ warmBand q ∨ dayBand q) ∧
      ¬ (nightBand q ∧ warmBand q) ∧ ¬ (nightBand q ∧ dayBand q) ∧
      ¬ (warmBand q ∧ dayBand q) ∧ (dayBand q ↔ ¬ nightBand q ∧ ¬ warmBand q) := by
    unfold nightBand warmBand dayBand
    refine ⟨?_, ?_, ?_, ?_, ?_⟩
    · by_cases h6 : q < 6
      · exact Or.inl (Or.inl h6)
      · by_cases h8 : q < 8
        · exact Or.inr (Or.inl (Or.inl ⟨not_lt.mp h6, h8⟩))
        · by_cases h16 : q ≤ 16
          · exact Or.inr (Or.inr ⟨not_lt.mp h8, h16⟩)
          · by_cases h18 : q ≤ 18
            · exact Or.inr (Or.inl (Or.inr ⟨not_le.mp h16, h18⟩))
            · exact Or.inl (Or.inr (not_le.mp h18))
    · rintro ⟨h1 | h1, ⟨h2, h3⟩ | ⟨h2, h3⟩⟩ <;> linarith
    · rintro ⟨h1 | h1, h2, h3⟩ <;> linarith
    · rintro ⟨⟨h1, h2⟩ | ⟨h1, h2⟩, h3, h4⟩ <;> linarith
    · constructor
      · rintro ⟨h1, h2⟩
        refine ⟨?_, ?_⟩
        · rintro (h | h) <;> linarith
        · rintro (⟨h3, h4⟩ | ⟨h3, h4⟩) <;> linarith
      · rintro ⟨h1, h2⟩
        rw [not_or] at h1 h2
        obtain ⟨h1a, h1b⟩ := h1
        obtain ⟨h2a, h2b⟩ := h2
        have h6 : 6 ≤ q := not_lt.mp h1a
        have h18 : q ≤ 18 := not_lt.mp h1b
        refine ⟨?_, ?_⟩
        · by_contra hc
          exact h2a ⟨h6, not_le.mp hc⟩
        · by_contra hc
          exact h2b ⟨not_le.mp hc, h18⟩
  refine ⟨?_, hpart⟩
  obtain ⟨_, hnw, hnd, hwd, hday⟩ := hpart
  by_cases hn : nightBand q
  · refine ⟨_, by simp only [updateTimeOfDay, hsun]; rfl, ?_⟩
    have hc : ((JSNum.num q).lt (.num 6) || (JSNum.num q).gt (.num 18)) = true := by
      simpa [JSNum.lt, JSNum.gt] using hn
    simp only [hc, if_true]
    exact ⟨fun _ => trivial, fun hw => absurd ⟨hn, hw⟩ hnw, fun h => absurd hn h.1,
      fun hd => absurd ⟨hn, hd⟩ hnd⟩
  · have hc : ((JSNum.num q).lt (.num 6) || (JSNum.num q).gt (.num 18)) = false := by
      simpa [JSNum.lt, JSNum.gt, nightBand, not_or] using hn
    by_cases hw : warmBand q
    · refine ⟨_, by simp only [updateTimeOfDay, hsun]; rfl, ?_⟩
      have hc2 : ((JSNum.num q).lt (.num 8) || (JSNum.num q).gt (.num 16)) = true := by
        simp only [JSNum.lt, JSNum.gt, Bool.or_eq_true, decide_eq_true_eq]
        rcases hw with ⟨_, h⟩ | ⟨h, _⟩
        · exact Or.inl h
        · exact Or.inr h
      simp only [hc, hc2, if_true, Bool.false_eq_true, if_false]
      exact ⟨fun h => absurd h hn, fun _ => trivial, fun h => absurd hw h.2,
        fun hd => absurd ⟨hw, hd⟩ hwd⟩
    · refine ⟨_, by simp only [updateTimeOfDay, hsun]; rfl, ?_⟩
      have hd : dayBand q := hday.mpr ⟨hn, hw⟩
      have hc2 : ((JSNum.num q).lt (.num 8) || (JSNum.num q).gt (.num 16)) = false := by
        simp only [JSNum.lt, JSNum.gt, Bool.or_eq_false_iff, decide_eq_false_iff_not, not_lt]
        exact ⟨hd.1, hd.2⟩
      simp only [hc, hc2, Bool.false_eq_true, if_false]
      exact ⟨fun h => absurd h hn, fun h => absurd h hw, fun _ => trivial, fun _ => trivial⟩

/-- Witness of C10: noon in the sample application after `createDefaultScene`. -/
theorem updateTimeOfDay_bands_witness :
    (∃ s, (updateTimeOfDay sampleMath initialApp (.num 12)).state.lights.sun = some s ∧
      (nightBand 12 → s.intensity = .num 0.5) ∧
      (warmBand 12 → s.intensity = .num 0.8) ∧
      (¬ nightBand 12 ∧ ¬ warmBand 12 → s.intensity = .num 1.2) ∧
      (dayBand 12 → s.intensity = .num 1.2)) ∧
    (nightBand 12 ∨ warmBand 12 ∨ dayBand 12) ∧
    ¬ (nightBand 12 ∧ warmBand 12) ∧ ¬ (nightBand 12 ∧ dayBand 12) ∧
    ¬ (warmBand 12 ∧ dayBand 12) ∧
    (dayBand 12 ↔ ¬ nightBand 12 ∧ ¬ warmBand 12) :=
  updateTimeOfDay_bands sampleMath initialApp
    { ref := 1, color := 0xffffff, intensity := .num 1, position := ⟨.num 10, .num 20, .num 5⟩
      castShadow := true, shadowMapWidth := .num 2048, shadowMapHeight := .num 2048 }
    12 rfl

/-- C11: for every hour, in particular every hour of [0,24), applying `updateTimeOfDay` twice
with that hour gives the same application, so the same sun descriptor, as applying it once; and
for any two applications with a sun light the resulting position, colour and intensity are the
same, with the position `(cos(a)*20, sin(a)*10+10, sin(a)*20)` for `a = hour/24 * π * 2`. -/
theorem updateTimeOfDay_idempotent (m : JSMath) (a b : App) (sa sb : SunLight) (hour : JSNum)
    (ha : a.state.lights.sun = some sa) (hb : b.state.lights.sun = some sb) :
    updateTimeOfDay m (updateTimeOfDay m a hour) hour = updateTimeOfDay m a hour ∧
    ∃ s t, (updateTimeOfDay m a hour).state.lights.sun = some s ∧
      (updateTimeOfDay m (updateTimeOfDay m a hour) hour).state.lights.sun = some s ∧
      (updateTimeOfDay m b hour).state.lights.sun = some t ∧
      s.position = t.position ∧ s.color = t.color ∧ s.intensity = t.intensity ∧
      s.position =
        ⟨(m.cos (((hour.div (.num 24)).mul m.pi).mul (.num 2))).mul (.num 20),
         ((m.sin (((hour.div (.num 24)).mul m.pi).mul (.num 2))).mul (.num 10)).add (.num 10),
         (m.sin (((hour.div (.num 24)).mul m.pi).mul (.num 2))).mul (.num 20)⟩ := by
  have idem : updateTimeOfDay m (updateTimeOfDay m a hour) hour = updateTimeOfDay m a hour := by
    cases h1 : (hour.lt (.num 6) || hour.gt (.num 18)) <;>
      cases h2 : (hour.lt (.num 8) || hour.gt (.num 16)) <;>
      simp [updateTimeOfDay, ha, h1, h2]
  refine ⟨idem, ?_⟩
  rw [idem]
  cases h1 : (hour.lt (.num 6) || hour.gt (.num 18)) <;>
    cases h2 : (hour.lt (.num 8) || hour.gt (.num 16)) <;>
    simp [updateTimeOfDay, ha, hb, h1, h2]

/-- Witness of C11: six in the morning, in the sample application and in the application built
from other controls. -/
theorem updateTimeOfDay_idempotent_witness :
    updateTimeOfDay sampleMath (updateTimeOfDay sampleMath initialApp (.num 6)) (.num 6) =
      updateTimeOfDay sampleMath initialApp (.num 6) :=
  (updateTimeOfDay_idempotent sampleMath initialApp (createDefaultScene sampleMath marbleApp)
    { ref := 1, color := 0xffffff, intensity := .num 1, position := ⟨.num 10, .num 20, .num 5⟩
      castShadow := true, shadowMapWidth := .num 2048, shadowMapHeight := .num 2048 }
    { ref := 1, color := 0xffffff, intensity := .num 1, position := ⟨.num 10, .num 20, .num 5⟩
      castShadow := true, shadowMapWidth := .num 2048, shadowMapHeight := .num 2048 }
    (.num 6) rfl rfl).1

/-! ## Mode -/

/-- C12, as stated, fails: at midnight `updateTimeOfDay` has set the sun intensity to 0.5;
`setMode('render')` then sets it to 1.5, which is not 1.5 times 0.5. -/
theorem setMode_render_not_scaled :
    nightApp.state.lights.sun.map (fun s => s.intensity) = some (.num 0.5) ∧
    (setMode nightApp "render").state.lights.sun.map (fun s => s.intensity) = some (.num 1.5) ∧
    (setMode nightApp "render").state.lights.sun.map (fun s => s.intensity) ≠
      nightApp.state.lights.sun.map (fun s => (JSNum.num 1.5).mul s.intensity) := by
  obtain ⟨s, hs, hi⟩ := nightApp_sun
  rw [setMode_render_sun nightApp s hs, hs]
  simp only [Option.map_some', hi, JSNum.mul]
  refine ⟨trivial, trivial, ?_⟩
  intro h
  have h2 : (1.5 : ℚ) = 1.5 * 0.5 := by
    injection h with h1
    injection h1
  norm_num at h2

/-- C12, amended: for every application with a sun light, `setMode('render')` sets the sun
intensity to the constant 1.5, whatever it was, and sets the tone mapping to ACES filmic with
exposure 1.2; `setMode('bim')` sets the intensity to 1 and the tone mapping to none. Both record
the mode. -/
theorem setMode_intensity (a : App) (sun : SunLight) (h : a.state.lights.sun = some sun) :
    (setMode a "render").state.lights.sun.map (fun s => s.intensity) = some (.num 1.5) ∧
    (setMode a "render").renderer.toneMapping = .ACESFilmicToneMapping ∧
    (setMode a "render").renderer.toneMappingExposure = .num 1.2 ∧
    (setMode a "render").state.mode = "render" ∧
    (setMode a "bim").state.lights.sun.map (fun s => s.intensity) = some (.num 1) ∧
    (setMode a "bim").renderer.toneMapping = .NoToneMapping ∧
    (setMode a "bim").state.mode = "bim" := by
  rw [setMode_render_sun a sun h, setMode_bim_sun a sun h]
  refine ⟨rfl, ?_, ?_, ?_, rfl, ?_, ?_⟩ <;>
    simp [setMode, activateRenderMode, activateBIMMode, showToast, h]

/-- Witness of the amended C12: the sample application after `createDefaultScene`. -/
theorem setMode_intensity_witness :
    (setMode initialApp "render").state.lights.sun.map (fun s => s.intensity) = some (.num 1.5) ∧
    (setMode initialApp "render").renderer.toneMapping = .ACESFilmicToneMapping ∧
    (setMode initialApp "render").renderer.toneMappingExposure = .num 1.2 ∧
    (setMode initialApp "render").state.mode = "render" ∧
    (setMode initialApp "bim").state.lights.sun.map (fun s => s.intensity) = some (.num 1) ∧
    (setMode initialApp "bim").renderer.toneMapping = .NoToneMapping ∧
    (setMode initialApp "bim").state.mode = "bim" :=
  setMode_intensity initialApp _ initialApp_sun

/-! ## Keyboard -/

/-- C15: `handleKeyPress` sets the active tool to wall for the key 1, to window for 2 and to
door for 3; every other key leaves `state.activeTool` unchanged, and no key makes furniture the
active tool when it was not. -/
theorem handleKeyPress_tool (a : App) (key : String) :
    (handleKeyPress a "1").state.activeTool = "wall" ∧
    (handleKeyPress a "2").state.activeTool = "window" ∧
    (handleKeyPress a "3").state.activeTool = "door" ∧
    (key ∉ ["1", "2", "3"] → (handleKeyPress a key).state.activeTool = a.state.activeTool) ∧
    ((handleKeyPress a key).state.activeTool = "furniture" → a.state.activeTool = "furniture") := by
  have same : key ∉ ["1", "2", "3"] →
      (handleKeyPress a key).state.activeTool = a.state.activeTool := by
    intro hk
    simp only [List.mem_cons, List.mem_singleton, List.not_mem_nil, or_false, not_or] at hk
    obtain ⟨h1, h2, h3⟩ := hk
    have l1 : toLowerCase key ≠ "1" := fun h => h1 (toLowerCase_eq_single key '1' (by decide) h)
    have l2 : toLowerCase key ≠ "2" := fun h => h2 (toLowerCase_eq_single key '2' (by decide) h)
    have l3 : toLowerCase key ≠ "3" := fun h => h3 (toLowerCase_eq_single key '3' (by decide) h)
    simp only [handleKeyPress, l1, l2, l3, if_false]
    split_ifs
    all_goals first
      | rfl
      | exact (setMode_frame a _).2.2.1
  have w1 : (handleKeyPress a "1").state.activeTool = "wall" := rfl
  have w2 : (handleKeyPress a "2").state.activeTool = "window" := rfl
  have w3 : (handleKeyPress a "3").state.activeTool = "door" := rfl
  refine ⟨w1, w2, w3, same, ?_⟩
  intro hf
  by_cases hk : key ∈ ["1", "2", "3"]
  · simp only [List.mem_cons, List.mem_singleton, List.not_mem_nil, or_false] at hk
    rcases hk with hk | hk | hk <;> subst hk
    · exact absurd (w1.symm.trans hf) (by decide)
    · exact absurd (w2.symm.trans hf) (by decide)
    · exact absurd (w3.symm.trans hf) (by decide)
  · rw [← same hk]; exact hf

/-- Witness of C15: the keys 1 and h in the sample application. -/
theorem handleKeyPress_tool_witness :
    (handleKeyPress initialApp "1").state.activeTool = "wall" ∧
    (handleKeyPress initialApp "h").state.activeTool = initialApp.state.activeTool :=
  ⟨(handleKeyPress_tool initialApp "h").1, (handleKeyPress_tool initialApp "h").2.2.2.1 (by decide)⟩

/-- C16: the space key toggles the mode, from bim to render and from render to bim, so that
pressing it twice in a state whose mode is one of the two restores the mode; the registry and
the active tool are unchanged by it. -/
theorem space_toggles_mode (a : App) (h : a.state.mode = "bim" ∨ a.state.mode = "render") :
    (a.state.mode = "bim" → (handleKeyPress a " ").state.mode = "render") ∧
    (a.state.mode = "render" → (handleKeyPress a " ").state.mode = "bim") ∧
    (handleKeyPress (handleKeyPress a " ") " ").state.mode = a.state.mode ∧
    (handleKeyPress a " ").state.sceneObjects = a.state.sceneObjects ∧
    (handleKeyPress a " ").state.activeTool = a.state.activeTool ∧
    (handleKeyPress (handleKeyPress a " ") " ").state.sceneObjects = a.state.sceneObjects ∧
    (handleKeyPress (handleKeyPress a " ") " ").state.activeTool = a.state.activeTool := by
  have key : ∀ x : App, handleKeyPress x " " =
      setMode x (if x.state.mode = "bim" then "render" else "bim") := fun x => rfl
  have once := setMode_frame a (if a.state.mode = "bim" then "render" else "bim")
  have twice := setMode_frame (handleKeyPress a " ")
    (if (handleKeyPress a " ").state.mode = "bim" then "render" else "bim")
  rw [key (handleKeyPress a " ")]
  rw [key a] at twice ⊢
  refine ⟨?_, ?_, ?_, once.2.1, once.2.2.1, twice.2.1.trans once.2.1,
    twice.2.2.1.trans once.2.2.1⟩
  · intro hb
    rw [once.1, if_pos hb]
  · intro hr
    rw [once.1, hr]
    decide
  · rw [twice.1, once.1]
    rcases h with hb | hr
    · rw [hb]; decide
    · rw [hr]; decide

/-- Witness of C16: the sample application, which is in bim mode. -/
theorem space_toggles_mode_witness :
    (handleKeyPress initialApp " ").state.mode = "render" ∧
    (handleKeyPress (handleKeyPress initialApp " ") " ").state.mode = initialApp.state.mode :=
  ⟨(space_toggles_mode initialApp (Or.inl rfl)).1 rfl,
    (space_toggles_mode initialApp (Or.inl rfl)).2.2.1⟩

/-! ## Placement position -/

/-- C17: in bim mode with the wall, window or door tool active, a click whose ray first hits
geometry at `p` appends one element of the type of the tool, positioned at
`(p.x, p.y + 0.01, p.z)`. -/
theorem handleCanvasClick_position (a : App) (event : ClickEvent) (p : Vec3) (rest : List Vec3)
    (hm : a.state.mode = "bim")
    (ht : a.state.activeTool = "wall" ∨ a.state.activeTool = "window" ∨
      a.state.activeTool = "door") :
    ∃ o, (handleCanvasClick a event (p :: rest)).state.sceneObjects =
        a.state.sceneObjects ++ [o] ∧
      o.type = a.state.activeTool ∧
      o.mesh.position = ⟨p.x, p.y.add (.num 0.01), p.z⟩ := by
  rcases ht with ht | ht | ht
  · simp only [handleCanvasClick, hm, ht, if_true]
    exact ⟨_, addWall_sceneObjects _ _, rfl, rfl⟩
  · simp only [handleCanvasClick, hm, ht, if_true]
    rw [if_neg (by decide)]
    exact ⟨_, rfl, rfl, rfl⟩
  · simp only [handleCanvasClick, hm, ht, if_true]
    rw [if_neg (by decide), if_neg (by decide)]
    exact ⟨_, rfl, rfl, rfl⟩

/-- Witness of C17: a click on the ground at (1, 0, 2) in the sample application. -/
theorem handleCanvasClick_position_witness :
    ∃ o, (handleCanvasClick initialApp sampleClick [sampleHit]).state.sceneObjects =
        initialApp.state.sceneObjects ++ [o] ∧
      o.type = initialApp.state.activeTool ∧
      o.mesh.position = ⟨sampleHit.x, sampleHit.y.add (.num 0.01), sampleHit.z⟩ :=
  handleCanvasClick_position initialApp sampleClick sampleHit [] rfl (Or.inl rfl)

/-! ## Placeholder exports -/

/-- C18: the two placeholder exports do not depend on the scene. For any two applications
`exportAsGLTF` returns the same document, with exactly one scene, one node and one mesh, and
`exportAsIFC` with the same timestamp returns the same text; the DATA section of that text is
the same fourteen records whatever the registry holds, none of them a building element. -/
theorem placeholder_exports_constant (a b : App) (created : String) :
    exportAsGLTF a = exportAsGLTF b ∧
    (exportAsGLTF a).get "scenes" = .arr [.obj [("nodes", .arr [.num (.num 0)])]] ∧
    (exportAsGLTF a).get "nodes" = .arr [.obj [("mesh", .num (.num 0))]] ∧
    (∃ mesh, (exportAsGLTF a).get "meshes" = .arr [mesh]) ∧
    exportAsIFC a created = exportAsIFC b created ∧
    exportAsIFC a created = "\n".intercalate (ifcLines created) ∧
    (∃ header footer, ifcLines created = header ++ ifcRecords.map IfcRecord.line ++ footer ∧
      header.length = 8 ∧ footer.length = 5 ∧ footer.getLast? = some "END-ISO-10303-21;") ∧
    ifcRecords.map (fun r => r.entity) =
      [ "IFCPROJECT", "IFCOWNERHISTORY", "IFCPERSONANDORGANIZATION", "IFCPERSON",
        "IFCORGANIZATION", "IFCAPPLICATION", "IFCUNITASSIGNMENT",
        "IFCGEOMETRICREPRESENTATIONCONTEXT", "IFCSIUNIT", "IFCSIUNIT", "IFCAXIS2PLACEMENT3D",
        "IFCCARTESIANPOINT", "IFCDIRECTION", "IFCDIRECTION" ] ∧
    (∀ r ∈ ifcRecords, r.entity ∉ ifcBuildingEntities) :=
  ⟨rfl, rfl, rfl, ⟨_, rfl⟩, rfl, rfl, ⟨_, _, rfl, rfl, rfl, rfl⟩, rfl, by decide⟩

/-! ## The export dialog -/

/-- C20: for the formats gltf, json and ifc, `exportProject` (a total function: nothing
escapes it) leaves `state`, so the registry, the mode and the active tool, and the scene
unchanged, whether a statement of its `try` throws or not. When one throws, no download is
started and the last toast is the error notification; when none throws, a download with the
file name of the format is started and the last toast reports the success. -/
theorem exportProject_frame (a : App) (format : String) (now : Nat) (created dataURL : String)
    (fault : Option ExportFault) (hf : format ∈ ["gltf", "json", "ifc"]) :
    (exportProject a (some format) now created dataURL fault).1.state = a.state ∧
    (exportProject a (some format) now created dataURL fault).1.scene = a.scene ∧
    (fault ≠ none →
      (exportProject a (some format) now created dataURL fault).1.dom.toasts =
        a.dom.toasts ++ [⟨"Export " ++ format ++ " en cours...", "info", "info-circle"⟩,
          ⟨"Erreur lors de l'export", "error", "exclamation-circle"⟩] ∧
      (exportProject a (some format) now created dataURL fault).2.isSome = false) ∧
    (fault = none →
      (exportProject a (some format) now created dataURL fault).1.dom.toasts =
        a.dom.toasts ++ [⟨"Export " ++ format ++ " en cours...", "info", "info-circle"⟩,
          ⟨"Projet exporté en " ++ toUpperCase format, "success", "check-circle"⟩] ∧
      (exportProject a (some format) now created dataURL fault).2.map (fun d => d.filename) =
        some (some ("archilum-project-" ++ toString now ++ ("." ++ format)))) := by
  have himg : format ≠ "image" := by
    simp only [List.mem_cons, List.mem_singleton, List.not_mem_nil, or_false] at hf
    rcases hf with h | h | h <;> subst h <;> decide
  cases fault with
  | some f =>
    simp only [exportProject, Option.getD_some, himg, if_false]
    refine ⟨rfl, rfl, fun _ => ⟨?_, rfl⟩, fun h => absurd h (by simp)⟩
    simp [showToast, getToastIcon]
  | none =>
    simp only [exportProject, Option.getD_some, himg, if_false]
    refine ⟨rfl, rfl, fun h => absurd rfl h, fun _ => ⟨?_, ?_⟩⟩
    · simp [showToast, getToastIcon, hideExportModal]
    · simp only [List.mem_cons, List.mem_singleton, List.not_mem_nil, or_false] at hf
      rcases hf with h | h | h <;> subst h <;> rfl

/-- Witness of C20: a json export of the sample application in which the download throws. -/
theorem exportProject_frame_witness :
    (exportProject initialApp (some "json") 17 "2026-01-01T00:00:00.000Z" ""
      (some .download)).1.state = initialApp.state ∧
    (exportProject initialApp (some "json") 17 "2026-01-01T00:00:00.000Z" ""
      (some .download)).1.dom.toasts =
        initialApp.dom.toasts ++ [⟨"Export " ++ "json" ++ " en cours...", "info", "info-circle"⟩,
          ⟨"Erreur lors de l'export", "error", "exclamation-circle"⟩] :=
  ⟨(exportProject_frame initialApp "json" 17 "2026-01-01T00:00:00.000Z" "" (some .download)
      (by decide)).1,
    ((exportProject_frame initialApp "json" 17 "2026-01-01T00:00:00.000Z" "" (some .download)
      (by decide)).2.2.1 (by decide)).1⟩

/-! ## Invariants of the registry -/

/-- C13, as stated, fails: with the height control at 0 in the sample application, a click with
the wall tool registers a wall whose height is 0, which is not above 0. -/
theorem wall_height_zero_registered :
    (run sampleMath initialApp
        [.setHeightSlider (.num 0), .click sampleClick [sampleHit]]).state.sceneObjects.getLast?.map
      (fun o => (o.type, o.height)) = some ("wall", some (.num 0)) ∧
    ¬ (JSNum.num 0).pos := by
  decide

/-- C13, amended: start from an empty registry and run `createDefaultScene`, then any sequence
of actions. If the height control held a number above 0 at the start and every value set on it
is a number above 0, then in the registry the elements with a height are exactly the walls, and
every such height is a number above 0. -/
theorem wall_heights_positive (m : JSMath) (a0 : App) (actions : List Action)
    (h0 : a0.state.sceneObjects = []) (hs : a0.dom.heightSlider.pos)
    (hv : ∀ v, Action.setHeightSlider v ∈ actions → v.pos) :
    (∀ o ∈ (run m (createDefaultScene m a0) actions).state.sceneObjects,
      ∀ h, o.height = some h → o.type = "wall" ∧ h.pos) ∧
    (∀ o ∈ (run m (createDefaultScene m a0) actions).state.sceneObjects,
      o.type = "wall" → ∃ h, o.height = some h ∧ h.pos) :=
  (run_heightInv m actions _ ((createDefaultScene_inv m a0 h0).2.2 hs) hv).2

/-- Witness of the amended C13: the sample application, the height control moved to 2, then a
click with the wall tool. -/
theorem wall_heights_positive_witness :
    (∀ o ∈ (run sampleMath (createDefaultScene sampleMath sampleApp)
        [.setHeightSlider (.num 2), .click sampleClick [sampleHit]]).state.sceneObjects,
      ∀ h, o.height = some h → o.type = "wall" ∧ h.pos) ∧
    (∀ o ∈ (run sampleMath (createDefaultScene sampleMath sampleApp)
        [.setHeightSlider (.num 2), .click sampleClick [sampleHit]]).state.sceneObjects,
      o.type = "wall" → ∃ h, o.height = some h ∧ h.pos) :=
  wall_heights_positive sampleMath sampleApp
    [.setHeightSlider (.num 2), .click sampleClick [sampleHit]] rfl
    (by simp [sampleApp, JSNum.pos])
    (by
      intro v hv
      simp only [List.mem_cons, List.mem_singleton, List.not_mem_nil, or_false] at hv
      rcases hv with hv | hv
      · injection hv with hv
        subst hv
        simp [JSNum.pos]
      · exact nomatch hv)

/-- C14, as stated, fails: in the sample application after `createDefaultScene` and one click
with the wall tool, no entry of the registry has a key `id`; the keys are `type` and `mesh`,
and for the wall `material`, `color` and `height`. -/
theorem registry_entries_without_id :
    (run sampleMath initialApp [.click sampleClick [sampleHit]]).state.sceneObjects.map
        SceneObject.keys =
      [["type", "mesh"], ["type", "mesh"], ["type", "mesh"], ["type", "mesh"], ["type", "mesh"],
        ["type", "mesh"], ["type", "mesh"], ["type", "mesh", "material", "color", "height"]] ∧
    ∀ o ∈ (run sampleMath initialApp [.click sampleClick [sampleHit]]).state.sceneObjects,
      "id" ∉ o.keys := by
  decide

/-- C14, amended: the entries of the registry carry no id of their own; each holds the mesh
created for it. Start from an empty registry and run `createDefaultScene`, then any actions
`xs`, then any actions `ys` (`clearScene` and its re-seeding included): the meshes of the
registry are pairwise distinct objects, and an entry after `ys` that holds the mesh of an entry
from before `ys` is that entry, so no mesh is ever used for a second element. -/
theorem mesh_refs_never_reused (m : JSMath) (a0 : App) (xs ys : List Action)
    (h0 : a0.state.sceneObjects = []) :
    ((run m (createDefaultScene m a0) xs).state.sceneObjects.map (fun o => o.mesh.ref)).Nodup ∧
    (∀ o ∈ (run m (createDefaultScene m a0) xs).state.sceneObjects,
      o.mesh.ref < (run m (createDefaultScene m a0) xs).nextRef) ∧
    (∀ o1 ∈ (run m (createDefaultScene m a0) xs).state.sceneObjects,
      ∀ o2 ∈ (run m (createDefaultScene m a0) (xs ++ ys)).state.sceneObjects,
        o1.mesh.ref = o2.mesh.ref → o1 = o2) := by
  obtain ⟨r1, _, _⟩ := run_refInv m xs _ (createDefaultScene_inv m a0 h0).1
  refine ⟨r1.1, r1.2, ?_⟩
  intro o1 h1 o2 h2 he
  rw [run_append] at h2
  rcases (run_refInv m ys _ r1).2.2 o2 h2 with hold | hnew
  · exact List.inj_on_of_nodup_map r1.1 h1 hold he
  · have := r1.2 o1 h1
    omega

/-- Witness of the amended C14: the sample application, a wall placed, the scene cleared, a
tree added. -/
theorem mesh_refs_never_reused_witness :
    ((run sampleMath (createDefaultScene sampleMath sampleApp)
        [.click sampleClick [sampleHit], .clear true]).state.sceneObjects.map
      (fun o => o.mesh.ref)).Nodup :=
  (mesh_refs_never_reused sampleMath sampleApp [.click sampleClick [sampleHit], .clear true]
    [.asset "tree"] rfl).1

/-- C19: start `createDefaultScene` from any application and run any sequence of actions. In
the application reached, and after each of `addWall`, `addWindow`, `addDoor`, `addAsset` with
any asset name and `clearScene` with any answer applied to it, `stats.objects` and the object
count shown both equal `state.sceneObjects.length`; so they do right after `createDefaultScene`
itself. -/
theorem objectCount_matches (m : JSMath) (a0 : App) (actions : List Action)
    (position : Option Vec3) (t : String) (confirmed : Bool) :
    CountInv (createDefaultScene m a0) ∧
    CountInv (run m (createDefaultScene m a0) actions) ∧
    CountInv (addWall (run m (createDefaultScene m a0) actions) position) ∧
    CountInv (addWindow (run m (createDefaultScene m a0) actions) position) ∧
    CountInv (addDoor (run m (createDefaultScene m a0) actions) position) ∧
    CountInv (addAsset (run m (createDefaultScene m a0) actions) t) ∧
    CountInv (clearScene m (run m (createDefaultScene m a0) actions) confirmed) ∧
    (addWall (run m (createDefaultScene m a0) actions) position).stats.objects =
      (addWall (run m (createDefaultScene m a0) actions) position).state.sceneObjects.length := by
  have init : CountInv (createDefaultScene m a0) := by
    obtain ⟨x, hx, _⟩ := createDefaultScene_eq m a0
    rw [hx]; exact ⟨rfl, rfl⟩
  have reach := run_countInv m actions _ init
  have after : ∀ act, CountInv (step m (run m (createDefaultScene m a0) actions) act) := by
    intro act
    obtain ⟨added, g, _⟩ := step_grows m (run m (createDefaultScene m a0) actions) act
    exact g.countInv reach
  exact ⟨init, reach, after (.wall position), after (.window position), after (.door position),
    after (.asset t), after (.clear confirmed), (after (.wall position)).1⟩

/-! ## Placement outside bim mode and with the furniture tool -/

/-- C21: in a state whose mode is not bim, `handleCanvasClick` changes nothing but the pointer:
`state`, so `state.sceneObjects`, the scene, the document and the reference counter are the
same after it, whichever tool is active and whether the ray hits or misses. -/
theorem handleCanvasClick_outside_bim (a : App) (event : ClickEvent) (intersects : List Vec3)
    (hm : a.state.mode ≠ "bim") :
    (handleCanvasClick a event intersects).state.sceneObjects = a.state.sceneObjects ∧
    (handleCanvasClick a event intersects).state = a.state ∧
    (handleCanvasClick a event intersects).scene = a.scene ∧
    (handleCanvasClick a event intersects).dom = a.dom ∧
    (handleCanvasClick a event intersects).nextRef = a.nextRef := by
  cases intersects with
  | nil => simp [handleCanvasClick, hm]
  | cons point rest => simp [handleCanvasClick, hm]

/-- Witness of C21: a click that hits the ground in the sample application in render mode. -/
theorem handleCanvasClick_outside_bim_witness :
    renderApp.state.mode ≠ "bim" ∧
    (handleCanvasClick renderApp sampleClick [sampleHit]).state.sceneObjects =
      renderApp.state.sceneObjects :=
  ⟨by decide, (handleCanvasClick_outside_bim renderApp sampleClick [sampleHit] (by decide)).1⟩

/-- C22: with the furniture tool active, `handleCanvasClick` adds no element, on a hit as on a
miss and in any mode: `state`, so `state.sceneObjects`, the scene and the reference counter are
the same after it. In bim mode it only shows a toast. -/
theorem handleCanvasClick_furniture (a : App) (event : ClickEvent) (intersects : List Vec3)
    (ht : a.state.activeTool = "furniture") :
    (handleCanvasClick a event intersects).state.sceneObjects = a.state.sceneObjects ∧
    (handleCanvasClick a event intersects).state = a.state ∧
    (handleCanvasClick a event intersects).scene = a.scene ∧
    (handleCanvasClick a event intersects).nextRef = a.nextRef := by
  cases intersects with
  | nil =>
    simp only [handleCanvasClick]
    split_ifs <;> exact ⟨rfl, rfl, rfl, rfl⟩
  | cons point rest =>
    simp only [handleCanvasClick]
    split_ifs with hb hwall hwindow hdoor
    · exact absurd (ht.symm.trans hwall) (by decide)
    · exact absurd (ht.symm.trans hwindow) (by decide)
    · exact absurd (ht.symm.trans hdoor) (by decide)
    all_goals exact ⟨rfl, rfl, rfl, rfl⟩

/-- Witness of C22: a hit and a miss in the sample application with the furniture tool. -/
theorem handleCanvasClick_furniture_witness :
    furnitureApp.state.activeTool = "furniture" ∧
    (handleCanvasClick furnitureApp sampleClick [sampleHit]).state.sceneObjects =
      furnitureApp.state.sceneObjects ∧
    (handleCanvasClick furnitureApp sampleClick []).state.sceneObjects =
      furnitureApp.state.sceneObjects :=
  ⟨by decide, (handleCanvasClick_furniture furnitureApp sampleClick [sampleHit] (by decide)).1,
    (handleCanvasClick_furniture furnitureApp sampleClick [] (by decide)).1⟩

/-! ## Assets -/

/-- C23: for `t` one of tree, person, car, plant, `addAsset` appends exactly one element, of
type asset, with `assetType` `t`, placed at `y = 0`; for every other `t` it changes nothing.
So in every registry reached from an empty one by `createDefaultScene` and any sequence of
actions, each element of type asset has an `assetType` among the four. -/
theorem addAsset_registers (m : JSMath) (a a0 : App) (actions : List Action) (t : String)
    (h0 : a0.state.sceneObjects = []) :
    (t ∈ assetTypes →
      ∃ o, (addAsset a t).state.sceneObjects = a.state.sceneObjects ++ [o] ∧
        o.type = "asset" ∧ o.assetType = some t ∧ o.mesh.position.y = .num 0) ∧
    (t ∉ assetTypes →
      addAsset a t = a ∧ (addAsset a t).state.sceneObjects = a.state.sceneObjects) ∧
    (∀ o ∈ (run m (createDefaultScene m a0) actions).state.sceneObjects,
      o.type = "asset" → ∃ t ∈ assetTypes, o.assetType = some t) := by
  refine ⟨?_, ?_, run_assetOk m actions _ (createDefaultScene_assetOk m a0 h0)⟩
  · intro ht
    have hs : t = "tree" ∨ t = "person" ∨ t = "car" ∨ t = "plant" := by
      simpa [assetTypes] using ht
    obtain ⟨body, hb⟩ := assetBody_isSome t hs
    unfold addAsset
    rw [hb]
    exact ⟨_, rfl, rfl, rfl, rfl⟩
  · intro ht
    have h : addAsset a t = a := by simp [addAsset, assetBody_eq_none t ht]
    exact ⟨h, by rw [h]⟩

/-- Witness of C23: a tree, then a name without a case, in the sample application. -/
theorem addAsset_registers_witness :
    (∃ o, (addAsset initialApp "tree").state.sceneObjects = initialApp.state.sceneObjects ++ [o] ∧
      o.type = "asset" ∧ o.assetType = some "tree" ∧ o.mesh.position.y = .num 0) ∧
    addAsset initialApp "chair" = initialApp ∧
    (∀ o ∈ (run sampleMath (createDefaultScene sampleMath sampleApp)
        [.asset "tree", .asset "chair", .clear false]).state.sceneObjects,
      o.type = "asset" → ∃ t ∈ assetTypes, o.assetType = some t) :=
  ⟨(addAsset_registers sampleMath initialApp sampleApp [] "tree" rfl).1 (by decide),
    ((addAsset_registers sampleMath initialApp sampleApp [] "chair" rfl).2.1 (by decide)).1,
    (addAsset_registers sampleMath initialApp sampleApp
      [.asset "tree", .asset "chair", .clear false] "tree" rfl).2.2⟩

/-! ## The clock label -/

/-- C24 at a failing input: the hour 23.99609375 lies in [0,24); its floor is 23 and the rest,
0.99609375 hours, is 59.765625 minutes, which `Math.round` takes to 60; `formatTime` returns
the text 23:60, whose minute field is not in 00..59. -/
theorem formatTime_minute_sixty :
    (0 : ℚ) ≤ lateHour ∧ lateHour < 24 ∧
    (⌊lateHour⌋ : Int) = 23 ∧
    mathRound ((lateHour - ((⌊lateHour⌋ : Int) : ℚ)) * 60) = 60 ∧
    formatTime (.num lateHour) = "23:60" := by
  have hf : (⌊lateHour⌋ : Int) = 23 := by
    rw [Int.floor_eq_iff]
    unfold lateHour
    constructor <;> norm_num
  have hr : mathRound ((lateHour - ((23 : Int) : ℚ)) * 60) = 60 := by
    unfold mathRound
    rw [Int.floor_eq_iff]
    unfold lateHour
    constructor <;> norm_num
  refine ⟨by unfold lateHour; norm_num, by unfold lateHour; norm_num, hf, by rw [hf]; exact hr,
    ?_⟩
  simp only [formatTime, hf, hr]
  decide

/-! ## Weather -/

/-- C25 at a failing input: in the sample application, which has no fog, selecting foggy and
then sunny, cloudy or overcast leaves the fog of foggy (near 10, far 50) in the scene; only the
background follows the last weather. -/
theorem updateWeather_fog_persists :
    initialApp.scene.fog = none ∧
    (updateWeather (updateWeather initialApp "foggy") "sunny").scene.fog =
      some { color := 0xd3d3d3, near := .num 10, far := .num 50 } ∧
    (updateWeather (updateWeather initialApp "foggy") "sunny").scene.background = 0x87ceeb ∧
    (updateWeather (updateWeather initialApp "foggy") "cloudy").scene.fog =
      some { color := 0xd3d3d3, near := .num 10, far := .num 50 } ∧
    (updateWeather (updateWeather initialApp "foggy") "overcast").scene.fog =
      some { color := 0xd3d3d3, near := .num 10, far := .num 50 } := by
  decide

end ArchiLum
